import Mathlib

/-!
Verification development for the Hoevelaken auto-rooster scheduler.

The Python pipeline (`app/preprocessing.py`, `app/solver_standardized.py`,
`app/validate.py`, `web/app.py`) is shallowly embedded below:

* calendar dates are `Int` day numbers (day 0 is the first horizon date in
  the concrete instances), times of day are `Nat` minutes since midnight,
  durations are `Nat` minutes;
* a CP-SAT solution is a pair of total boolean maps `x : Nat → EmpId → Bool`
  (assignment variables `x[s, e]`) and `u : Nat → Bool` (coverage slack);
  reified indicator variables (`n_emp_date`, `work_day`, ...) are replaced by
  the boolean functions their reification equations force them to equal, so
  each hard-constraint family of `auto_rooster_standardized` becomes a
  decidable predicate on `(x, u)`;
* dataframes become lists of structures carrying exactly the columns the
  embedded code reads.
-/

namespace Hoevelaken

abbrev EmpId := String

/-- One horizon shift instance (a row of the preprocessed `shifts` frame). -/
structure Shift where
  shift_id : Nat
  shift_name : String
  shift_date : Int
  week : Int
  global_week : Int
  day_of_week : Nat
  absolute_day : Int
  start_time : Nat
  end_time : Nat
  duration_min : Nat
  qualification : List Int
  is_night : Bool
  deriving Repr, DecidableEq, Inhabited

/-- One row of the preprocessed `workers` frame (only the columns the solver
and the validator read). -/
structure Worker where
  medewerker_id : EmpId
  medewerker_naam : String
  max_days_per_week : Nat
  contract_minutes : Int
  leeftijd : Int
  deskundigheid : List Int
  nachten : String
  voorkeur_nacht : String
  wensen : String
  patroon : List Int
  deriving Repr, DecidableEq, Inhabited

/-- One row of the preprocessed unavailability frame `onb`
(`Medewerker id`, `Datum`, `Beschikbaarheid`, `Beschikbaarheid_tijd_vanaf`,
`Beschikbaarheid_tijd_tm`); absent times are `none`. -/
structure OnbRow where
  emp : EmpId
  datum : Int
  beschikbaarheid : String
  tijd_vanaf : Option Nat
  tijd_tm : Option Nat
  deriving Repr, DecidableEq, Inhabited

/-- One canonicalised previous-assignment row (`prev_assignments`);
`employee_id` is `none` for the fabricated blank history. -/
structure PrevRow where
  shift_id : Nat
  shift_date : Int
  employee_id : Option EmpId
  is_night : Bool
  week : Int
  deriving Repr, DecidableEq, Inhabited

/-- The preprocessed data dictionary handed to `auto_rooster_standardized`.
The derived indexes (`dur_min`, `shifts_by_week`, `night_shifts`, ...) are
recomputed from `shifts` exactly as `preprocess_data` builds them. -/
structure RoosterData where
  shifts : List Shift
  workers : List Worker
  onb : List OnbRow
  emp_ids : List EmpId
  weeks : List Int
  prev : List PrevRow
  deriving Repr, DecidableEq, Inhabited

/-- One row of the extracted assignments table (`assignments_df`). -/
structure AssignRow where
  shift_id : Nat
  shift_name : String
  shift_date : Int
  week : Int
  day_of_week : Nat
  start_time : Nat
  end_time : Nat
  duration_min : Nat
  is_night : Bool
  employee_id : Option EmpId
  shift_filled : Bool
  deriving Repr, DecidableEq, Inhabited

/-- The dictionary returned by `auto_rooster_standardized` on success. -/
structure RoosterResult where
  assignments : List AssignRow
  uncovered : List Nat
  solver_status : String
  deriving Repr, DecidableEq, Inhabited

/-! ### Small list helpers (python `in`, `sorted`, `min`, `max`, `range`) -/

/-- Python `str(x).lower()` (`String.toLower` written over the character
data so that it evaluates by kernel reduction). -/
def pyLower (s : String) : String := String.mk (s.data.map Char.toLower)

/-- Python `d in l` for a list of dates. -/
def memI (d : Int) : List Int → Bool
  | [] => false
  | a :: t => (a == d) || memI d t

/-- Python `e in l` for a list of employee ids. -/
def memS (e : EmpId) : List EmpId → Bool
  | [] => false
  | a :: t => (a == e) || memS e t

/-- Python `n in l` / `isin` for a list of shift ids. -/
def memN (n : Nat) : List Nat → Bool
  | [] => false
  | a :: t => (a == n) || memN n t

/-- Python `sorted` on a list of dates / week numbers. -/
def sortI (l : List Int) : List Int := List.insertionSort (· ≤ ·) l

/-- Python `min` over a nonempty list of ints (0 for the empty list, which the
source never queries). -/
def minI : List Int → Int
  | [] => 0
  | a :: t => t.foldl min a

/-- Python `max` over a nonempty list of ints. -/
def maxI : List Int → Int
  | [] => 0
  | a :: t => t.foldl max a

/-- Python `range(a, b)` over ints. -/
def intRange (a b : Int) : List Int :=
  (List.range (b - a).toNat).map (fun (i : Nat) => a + (i : Int))

/-! ### Derived indexes (built by `preprocess_data` / the solver prologue) -/

/-- `shifts_by_date[d]` — the horizon shifts dated `d`. -/
def shiftsOnDate (shifts : List Shift) (d : Int) : List Shift :=
  shifts.filter (fun s => s.shift_date == d)

/-- `night_shifts_by_date[d]` — the night shifts dated `d`. -/
def nightShiftsOnDate (shifts : List Shift) (d : Int) : List Shift :=
  shifts.filter (fun s => s.shift_date == d && s.is_night)

/-- `night_shifts` — ids of all night shifts in the horizon. -/
def nightShiftIds (shifts : List Shift) : List Nat :=
  (shifts.filter (fun s => s.is_night)).map (fun s => s.shift_id)

/-- `shifts_by_week[w]` — the horizon shifts of week `w`. -/
def shiftsOfWeek (shifts : List Shift) (w : Int) : List Shift :=
  shifts.filter (fun s => s.week == w)

/-- `night_shifts_by_week.get(w, [])` — the night shifts of week `w`. -/
def nightShiftsOfWeek (shifts : List Shift) (w : Int) : List Shift :=
  shifts.filter (fun s => s.week == w && s.is_night)

/-- `dates_list` — the sorted distinct dates of the horizon shifts. -/
def datesList (shifts : List Shift) : List Int :=
  sortI ((shifts.map (fun s => s.shift_date)).dedup)

/-- `sorted(night_shifts_by_date.keys())` — the sorted distinct night dates. -/
def nightDatesList (shifts : List Shift) : List Int :=
  sortI (((shifts.filter (fun s => s.is_night)).map (fun s => s.shift_date)).dedup)

/-- `workers.loc[workers['medewerker_id'] == emp].iloc[0]` — the worker row of
an employee id (the source crashes when absent; we return a default row). -/
def getWorker (workers : List Worker) (e : EmpId) : Worker :=
  (workers.find? (fun w => w.medewerker_id == e)).getD default

/-- `get_last_consecutive_block_dates`, inner walk: on a descending list of
dates, collect the maximal prefix that steps down by exactly one day. -/
def tailRun : List Int → List Int
  | [] => []
  | [d] => [d]
  | d :: e :: t => if d - e == 1 then d :: tailRun (e :: t) else [d]

/-- `get_last_consecutive_block_dates(prev_assignments, emp, is_night)`:
the last consecutive block of (night) dates worked by `emp` in the previous
roster, ascending. -/
def get_last_consecutive_block_dates (prev : List PrevRow) (emp : EmpId)
    (is_night : Bool) : List Int :=
  let df := prev.filter (fun r => r.employee_id == some emp && (!is_night || r.is_night))
  let days := sortI ((df.map (fun r => r.shift_date)).dedup)
  (tailRun days.reverse).reverse

/-! ### Reified indicator variables

`n_emp_date[(emp, d)]` is reified by the pair of implications
`b → Σ x ≥ 1` and `¬b → Σ x = 0` (and `b = 0` when the date has no night
shift), so in every feasible solution it equals the following function. -/

/-- `n_emp_date[(emp, d)]`: `emp` works some night shift on date `d`. -/
def nOn (shifts : List Shift) (x : Nat → EmpId → Bool) (e : EmpId) (d : Int) : Bool :=
  (nightShiftsOnDate shifts d).any (fun s => x s.shift_id e)

/-- `work_day[(emp, d)]` (same reification over all shifts of the date). -/
def workOn (shifts : List Shift) (x : Nat → EmpId → Bool) (e : EmpId) (d : Int) : Bool :=
  (shiftsOnDate shifts d).any (fun s => x s.shift_id e)

/-! ### Hard constraint families of `auto_rooster_standardized` -/

/-- Constraint 1 (coverage): `sum(x[s, emp] for emp) + u[s] == 1`. -/
def coverage_ok (data : RoosterData) (x : Nat → EmpId → Bool) (u : Nat → Bool) : Bool :=
  data.shifts.all fun s =>
    data.emp_ids.countP (fun e => x s.shift_id e) + (bif u s.shift_id then 1 else 0) == 1

/-- Constraint 2: at most one shift per employee per calendar day. -/
def one_shift_per_day_ok (data : RoosterData) (x : Nat → EmpId → Bool) : Bool :=
  data.emp_ids.all fun e =>
    (datesList data.shifts).all fun d =>
      decide ((shiftsOnDate data.shifts d).countP (fun s => x s.shift_id e) ≤ 1)

/-- Constraint 3: after a night shift no non-night shift the next day:
`Σ x[night(d)] + Σ x[non_night(d+1)] ≤ |night(d)|`. -/
def no_day_after_night_ok (data : RoosterData) (x : Nat → EmpId → Bool) : Bool :=
  data.emp_ids.all fun e =>
    (datesList data.shifts).all fun d =>
      let next_d := d + 1
      if (shiftsOnDate data.shifts next_d).isEmpty then true
      else
        let night_today := nightShiftsOnDate data.shifts d
        let next_non_night := (shiftsOnDate data.shifts next_d).filter (fun s => !s.is_night)
        if night_today.isEmpty || next_non_night.isEmpty then true
        else
          decide (night_today.countP (fun s => x s.shift_id e)
              + next_non_night.countP (fun s => x s.shift_id e)
            ≤ night_today.length)

/-- Constraint 4: at most `max_days_per_week` shifts per week. -/
def max_days_per_week_ok (data : RoosterData) (x : Nat → EmpId → Bool) : Bool :=
  data.emp_ids.all fun e =>
    let max_days := (getWorker data.workers e).max_days_per_week
    data.weeks.all fun w =>
      let s_list := shiftsOfWeek data.shifts w
      if s_list.isEmpty then true
      else decide (s_list.countP (fun s => x s.shift_id e) ≤ max_days)

/-- Constraint 5: `Σ dur_min[s]·x[s, e] ≤ contract_minutes · num_weeks`. -/
def contract_minutes_ok (data : RoosterData) (x : Nat → EmpId → Bool) : Bool :=
  data.emp_ids.all fun e =>
    let cap := (getWorker data.workers e).contract_minutes
    let total : Int :=
      ((data.shifts.map fun s =>
        (s.duration_min : Int) * (bif x s.shift_id e then 1 else 0)).foldr (· + ·) 0)
    decide (total ≤ cap * (data.weeks.length : Int))

/-- Overlap test of constraint 6: with both window ends present,
`not (shift_end <= start_unb or shift_start >= end_unb)`; with a missing end,
the whole day conflicts. -/
def windowConflict (vanaf tm : Option Nat) (st en : Nat) : Bool :=
  match vanaf, tm with
  | some a, some b => !(decide (en ≤ a) || decide (st ≥ b))
  | _, _ => true

/-- Constraint 6: unavailability rows (any `Beschikbaarheid` other than
`beschikbaar`, case-insensitively) exclude the conflicting shifts. -/
def unavailability_ok (data : RoosterData) (x : Nat → EmpId → Bool) : Bool :=
  data.onb.all fun r =>
    if !(memS r.emp data.emp_ids) then true
    else if pyLower r.beschikbaarheid == "beschikbaar" then true
    else
      (shiftsOnDate data.shifts r.datum).all fun s =>
        !(windowConflict r.tijd_vanaf r.tijd_tm s.start_time s.end_time)
          || (x s.shift_id r.emp == false)

/-- Constraint 7.1: sliding windows of `max_consec + 1` strictly consecutive
dates over the union of the previous consecutive night tail and the horizon
night dates bound the *current-horizon* night assignments by `max_consec`
(`max_consec` is 7 for the literal exemption id, else 5). -/
def c71_max_consecutive_nights_ok (data : RoosterData) (x : Nat → EmpId → Bool) : Bool :=
  data.emp_ids.all fun e =>
    let max_consec : Nat := if e == "602859-1" then 7 else 5
    let prev_night_dates := get_last_consecutive_block_dates data.prev e true
    let curr_night_dates := nightDatesList data.shifts
    let combined := sortI ((prev_night_dates ++ curr_night_dates).dedup)
    (List.range (combined.length - max_consec)).all fun i =>
      let window := (combined.drop i).take (max_consec + 1)
      if window.getLastD 0 - window.headD 0 == (max_consec : Int) then
        let window_curr := window.filter (fun d => memI d curr_night_dates)
        if window_curr.isEmpty then true
        else
          let night_ids := window_curr.flatMap fun d =>
            (nightShiftsOnDate data.shifts d).map (fun s => s.shift_id)
          decide (night_ids.countP (fun sid => x sid e) ≤ max_consec)
      else true

/-- Constraint 7.2: 46 h rest after a block of ≥ 3 consecutive nights.
The previous tail blocks `dprev+1`, `dprev+2` unconditionally; inside the
horizon, `n(d0) ∧ n(d1) ∧ n(d2) ∧ ¬n(d2+1)` (over three *index-consecutive*
dates of `dates_list`, and only when `d2+1` is itself a horizon date) blocks
every shift on `d2+1` and `d2+2`. -/
def c72_rest_after_nights_ok (data : RoosterData) (x : Nat → EmpId → Bool) : Bool :=
  let dl := datesList data.shifts
  data.emp_ids.all fun e =>
    let prev_nights := get_last_consecutive_block_dates data.prev e true
    let tail_ok :=
      if 3 ≤ prev_nights.length then
        let dprev := prev_nights.getLastD 0
        ([1, 2] : List Int).all fun k =>
          let block_d := dprev + k
          if memI block_d dl then
            (shiftsOnDate data.shifts block_d).all fun s => x s.shift_id e == false
          else true
      else true
    let horizon_ok := (List.range dl.length).all fun idx =>
      if idx < 2 then true
      else
        let d2 := dl.getD idx 0
        let d1 := dl.getD (idx - 1) 0
        let d0 := dl.getD (idx - 2) 0
        let d2p1 := d2 + 1
        if !(memI d2p1 dl) then true
        else
          let cond := nOn data.shifts x e d0 && nOn data.shifts x e d1
            && nOn data.shifts x e d2 && !(nOn data.shifts x e d2p1)
          if cond then
            ([1, 2] : List Int).all fun k =>
              let bd := d2 + k
              if memI bd dl then
                (shiftsOnDate data.shifts bd).all fun s => x s.shift_id e == false
              else true
          else true
    tail_ok && horizon_ok

/-- `prev_count` of constraint 7.3: previous night rows of the employee whose
week (looked up by `shift_id` through the whole previous table, first match)
lies in the window weeks. -/
def prev_nights_in_weeks (prev : List PrevRow) (e : EmpId) (window_weeks : List Int) : Nat :=
  ((prev.filter fun r => r.employee_id == some e && r.is_night).map fun r => r.shift_id).countP
    fun sid =>
      match prev.find? (fun r2 => r2.shift_id == sid) with
      | some r2 => memI r2.week window_weeks
      | none => false

/-- Constraint 7.3: for `start_week in range(min_week, max_week - 12 + 1)`,
horizon night assignments of weeks `[start_week, start_week+12]` plus
`prev_count` are at most 35 (skipped when the window has no night shift). -/
def c73_rolling_13_weeks_ok (data : RoosterData) (x : Nat → EmpId → Bool) : Bool :=
  data.emp_ids.all fun e =>
    let min_week := minI data.weeks
    let max_week := maxI data.weeks
    (intRange min_week (max_week - 12 + 1)).all fun start_week =>
      let window_weeks := intRange start_week (start_week + 13)
      let window_shifts := window_weeks.flatMap fun w =>
        (nightShiftsOfWeek data.shifts w).map (fun s => s.shift_id)
      if window_shifts.isEmpty then true
      else
        decide (window_shifts.countP (fun sid => x sid e)
          + prev_nights_in_weeks data.prev e window_weeks ≤ 35)

/-- `CAO_7_4_exempt`: workers whose `nachten` differs from the literal
lowercase `niet`. -/
def cao_7_4_exempt (workers : List Worker) : List EmpId :=
  (workers.filter fun w => w.nachten != "niet").map (fun w => w.medewerker_id)

/-- Constraint 7.4: a non-exempt employee with `leeftijd >= 55` gets no night
shift. -/
def c74_age_55_ok (data : RoosterData) (x : Nat → EmpId → Bool) : Bool :=
  data.emp_ids.all fun e =>
    if memS e (cao_7_4_exempt data.workers) then true
    else if 55 ≤ (getWorker data.workers e).leeftijd then
      (nightShiftIds data.shifts).all fun sid => x sid e == false
    else true

/-- Constraint 8: an employee whose minimal `deskundigheid` exceeds the
shift's minimal required level is excluded. -/
def qualification_ok (data : RoosterData) (x : Nat → EmpId → Bool) : Bool :=
  data.shifts.all fun s =>
    let req_level := minI s.qualification
    data.emp_ids.all fun e =>
      let emp_level := (getWorker data.workers e).deskundigheid
      if minI emp_level > req_level then x s.shift_id e == false else true

/-- Constraint 9: `nachten == 'Niet'` forbids nights, `== 'uitsluitend'`
forbids non-nights. -/
def night_policy_ok (data : RoosterData) (x : Nat → EmpId → Bool) : Bool :=
  data.emp_ids.all fun e =>
    let night_emp := (getWorker data.workers e).nachten
    if night_emp == "Niet" then
      (nightShiftIds data.shifts).all fun sid => x sid e == false
    else if night_emp == "uitsluitend" then
      data.shifts.all fun s =>
        if !((nightShiftIds data.shifts).contains s.shift_id) then
          x s.shift_id e == false
        else true
    else true

/-- Wish 10.1 (employee `2097`): only night shifts. -/
def wish_2097_ok (data : RoosterData) (x : Nat → EmpId → Bool) : Bool :=
  if memS "2097" data.emp_ids then
    data.shifts.all fun s =>
      if !((nightShiftIds data.shifts).contains s.shift_id) then
        x s.shift_id "2097" == false
      else true
  else true

/-- Wish 10.2 (employee `2653`): only weekends. -/
def wish_2653_ok (data : RoosterData) (x : Nat → EmpId → Bool) : Bool :=
  if memS "2653" data.emp_ids then
    data.shifts.all fun s =>
      if !(s.day_of_week == 5 || s.day_of_week == 6) then
        x s.shift_id "2653" == false
      else true
  else true

/-- Wish 10.3 (employee `3888`): Friday evening (name containing `A`) or
weekend only. -/
def wish_3888_ok (data : RoosterData) (x : Nat → EmpId → Bool) : Bool :=
  if memS "3888" data.emp_ids then
    data.shifts.all fun s =>
      if !((s.day_of_week == 4 && s.shift_name.contains 'A')
          || s.day_of_week == 5 || s.day_of_week == 6) then
        x s.shift_id "3888" == false
      else true
  else true

/-- Wish 10.4 (employee `601011`): no Monday / Tuesday / Wednesday. -/
def wish_601011_ok (data : RoosterData) (x : Nat → EmpId → Bool) : Bool :=
  if memS "601011" data.emp_ids then
    data.shifts.all fun s =>
      if s.day_of_week == 0 || s.day_of_week == 1 || s.day_of_week == 2 then
        x s.shift_id "601011" == false
      else true
  else true

/-- Wish 10.5 (employee `603722-1`): at most 2 workdays in a row (with the
previous tail folded into the first window), forced rest after a previous
block, and the reified 2-days-off rule; `work_day` is replaced by the
function its reification forces. -/
def wish_603722_ok (data : RoosterData) (x : Nat → EmpId → Bool) : Bool :=
  let e := "603722-1"
  if memS e data.emp_ids then
    let dl := datesList data.shifts
    let wd := fun d => workOn data.shifts x e d
    let wn := fun d => (bif wd d then (1 : Nat) else 0)
    let prev_len := (get_last_consecutive_block_dates data.prev e false).length
    let triples_ok := (List.range (dl.length - 2)).all fun i =>
      let d := dl.getD i 0
      let d1 := dl.getD (i + 1) 0
      let d2 := dl.getD (i + 2) 0
      let offset := if i == 0 then min prev_len 2 else 0
      decide (wn d + wn d1 + wn d2 + offset ≤ 2)
    let prev_off_ok :=
      if 3 ≤ prev_len then (dl.take 2).all fun d => wd d == false
      else if prev_len == 2 then (dl.take 1).all fun d => wd d == false
      else true
    let reified_ok := (List.range (dl.length - 2)).all fun i =>
      let d := dl.getD i 0
      let d1 := dl.getD (i + 1) 0
      let d2 := dl.getD (i + 2) 0
      if wd d && !(wd d1) then wd d2 == false else true
    triples_ok && prev_off_ok && reified_ok
  else true

/-- Unavailable dates of an employee (used by wish 10.6): dates of rows whose
`Beschikbaarheid` is not `beschikbaar`. -/
def unavailableDates (onb : List OnbRow) (e : EmpId) : List Int :=
  ((onb.filter fun r => r.emp == e).filter
    fun r => !(pyLower r.beschikbaarheid == "beschikbaar")).map (fun r => r.datum)

/-- Wish 10.6 (employee `602859-1`): nights only, on a fixed 7-on/7-off
14-day phase.  With a previous night tail the phase is forced by its first
date (unavailable "on" days relax the indicator to 0); otherwise a one-hot
phase selector lets the solver pick the phase, which is exactly an
existential over `k < 14`. -/
def wish_602859_ok (data : RoosterData) (x : Nat → EmpId → Bool) : Bool :=
  let e := "602859-1"
  if memS e data.emp_ids then
    let dl := datesList data.shifts
    let only_nights := data.shifts.all fun s =>
      if !((nightShiftIds data.shifts).contains s.shift_id) then
        x s.shift_id e == false
      else true
    let nw := fun d => nOn data.shifts x e d
    let prev_nights := get_last_consecutive_block_dates data.prev e true
    let base := dl.headD 0
    let pattern_ok :=
      if !prev_nights.isEmpty then
        let prev_phase_offset := (prev_nights.headD 0 - base) % 14
        dl.all fun d =>
          let pos := ((d - base) - prev_phase_offset) % 14
          if pos < 7 then
            if memI d (unavailableDates data.onb e) then nw d == false
            else nw d == true
          else nw d == false
      else
        (List.range 14).any fun k =>
          dl.all fun d =>
            let pos := ((d - base) - (k : Int)) % 14
            if pos < 7 then nw d == true else nw d == false
    only_nights && pattern_ok
  else true

/-- Wish 10.8 (employee `602056`): at most 3 shifts per week, `A`/`N` names
only. -/
def wish_602056_ok (data : RoosterData) (x : Nat → EmpId → Bool) : Bool :=
  let e := "602056"
  if memS e data.emp_ids then
    data.weeks.all fun w =>
      let s_list := shiftsOfWeek data.shifts w
      if s_list.isEmpty then true
      else
        decide (s_list.countP (fun s => x s.shift_id e) ≤ 3)
          && s_list.all fun s =>
            if !(s.shift_name.contains 'A') && !(s.shift_name.contains 'N') then
              x s.shift_id e == false
            else true
  else true

/-- All hard constraints of `auto_rooster_standardized` (constraint 11.1 of
the source only prints and emits nothing).  A CP-SAT solution is feasible for
the built model iff its assignment/slack values satisfy this predicate. -/
def auto_rooster_constraints (data : RoosterData) (x : Nat → EmpId → Bool)
    (u : Nat → Bool) : Bool :=
  coverage_ok data x u
    && one_shift_per_day_ok data x
    && no_day_after_night_ok data x
    && max_days_per_week_ok data x
    && contract_minutes_ok data x
    && unavailability_ok data x
    && c71_max_consecutive_nights_ok data x
    && c72_rest_after_nights_ok data x
    && c73_rolling_13_weeks_ok data x
    && c74_age_55_ok data x
    && qualification_ok data x
    && night_policy_ok data x
    && wish_2097_ok data x
    && wish_2653_ok data x
    && wish_3888_ok data x
    && wish_601011_ok data x
    && wish_603722_ok data x
    && wish_602859_ok data x
    && wish_602056_ok data x

/-! ### Solution extraction and the solver driver -/

/-- The extraction loop body: the first employee (in `emp_ids` order) whose
`x[sid, emp]` is 1 fills the row; otherwise the row is uncovered. -/
def extract_row (emp_ids : List EmpId) (x : Nat → EmpId → Bool) (r : Shift) : AssignRow :=
  match emp_ids.find? (fun e => x r.shift_id e) with
  | some e =>
    { shift_id := r.shift_id, shift_name := r.shift_name, shift_date := r.shift_date,
      week := r.week, day_of_week := r.day_of_week, start_time := r.start_time,
      end_time := r.end_time, duration_min := r.duration_min, is_night := r.is_night,
      employee_id := some e, shift_filled := true }
  | none =>
    { shift_id := r.shift_id, shift_name := r.shift_name, shift_date := r.shift_date,
      week := r.week, day_of_week := r.day_of_week, start_time := r.start_time,
      end_time := r.end_time, duration_min := r.duration_min, is_night := r.is_night,
      employee_id := none, shift_filled := false }

/-- The `assignments` table built after a successful solve. -/
def extract_assignments (shifts : List Shift) (emp_ids : List EmpId)
    (x : Nat → EmpId → Bool) : List AssignRow :=
  shifts.map (extract_row emp_ids x)

/-- The `uncovered` list built after a successful solve. -/
def uncovered_shift_ids (shifts : List Shift) (emp_ids : List EmpId)
    (x : Nat → EmpId → Bool) : List Nat :=
  (shifts.filter fun r => (emp_ids.find? (fun e => x r.shift_id e)).isNone).map
    (fun r => r.shift_id)

/-- CP-SAT termination statuses. -/
inductive CpStatus where
  | optimal
  | feasible
  | infeasible
  | model_invalid
  | unknown
  deriving Repr, DecidableEq, Inhabited

/-- `solver.StatusName(status)`. -/
def statusName : CpStatus → String
  | CpStatus.optimal => "OPTIMAL"
  | CpStatus.feasible => "FEASIBLE"
  | CpStatus.infeasible => "INFEASIBLE"
  | CpStatus.model_invalid => "MODEL_INVALID"
  | CpStatus.unknown => "UNKNOWN"

/-- The tail of `auto_rooster_standardized`: on `OPTIMAL`/`FEASIBLE` the
result dictionary is built from the solution; on every other status the
function prints and returns `None`. -/
def auto_rooster_standardized_result (status : CpStatus) (data : RoosterData)
    (x : Nat → EmpId → Bool) : Option RoosterResult :=
  if status = CpStatus.optimal ∨ status = CpStatus.feasible then
    some { assignments := extract_assignments data.shifts data.emp_ids x,
           uncovered := uncovered_shift_ids data.shifts data.emp_ids x,
           solver_status := statusName status }
  else none

/-! ### Validator (`validate_auto_rooster`) -/

/-- Employees appearing in the (dropna-ed) assignment table, in first
appearance order (`groupby` key set). -/
def asgEmps (asg : List AssignRow) : List EmpId :=
  (asg.filterMap fun r => r.employee_id).dedup

/-- Assignment rows of one employee. -/
def rowsOfEmp (asg : List AssignRow) (e : EmpId) : List AssignRow :=
  asg.filter fun r => r.employee_id == some e

/-- `COA_7_1_exempt` of the validator.  The source tries
`int(str(patroon).split(',')[0].strip())`, but after preprocessing `patroon`
is a Python list, whose `str` starts with a bracket, so `int` always raises
and the `except` leaves `max_consec` at 5: no worker is ever exempt. -/
def coa_7_1_exempt (workers : List Worker) : List EmpId :=
  workers.filterMap fun w =>
    let max_consec := 5
    if max_consec ≠ 5 then some w.medewerker_id else none

/-- Validator check 1: coverage (`≤ 1` employee per shift id). -/
def check1_coverage (asg : List AssignRow) : List String :=
  (asg.map fun r => r.shift_id).dedup.filterMap fun sid =>
    if 1 < (asg.filter fun r => r.shift_id == sid).length then
      some ("Shift " ++ toString sid ++ " assigned to multiple employees")
    else none

/-- Validator check 2: at most one shift per employee per day. -/
def check2_one_per_day (asg : List AssignRow) : List String :=
  (asg.map fun r => (r.employee_id, r.shift_date)).dedup.filterMap fun p =>
    if 1 < (asg.filter fun r => r.employee_id == p.1 && r.shift_date == p.2).length then
      some ("Employee works multiple shifts on day " ++ toString p.2)
    else none

/-- Validator check 3: no day/evening shift on the day after a night shift. -/
def check3_after_night (asg : List AssignRow) : List String :=
  (asgEmps asg).flatMap fun e =>
    let g := rowsOfEmp asg e
    (g.filter fun r => r.is_night).filterMap fun ns =>
      let next_day := ns.shift_date + 1
      if !((g.filter fun r => r.shift_date == next_day && r.is_night == false).isEmpty) then
        some ("Employee " ++ e ++ " has day/evening shift after a night shift on day "
          ++ toString ns.shift_date)
      else none

/-- Validator check 4: max work days per week (distinct dates per week). -/
def check4_max_days (workers : List Worker) (asg : List AssignRow) : List String :=
  (asgEmps asg).flatMap fun e =>
    let max_days := (getWorker workers e).max_days_per_week
    let g := rowsOfEmp asg e
    (g.map fun r => r.week).dedup.filterMap fun w =>
      let worked_days := ((g.filter fun r => r.week == w).map fun r => r.shift_date).dedup.length
      if max_days < worked_days then
        some ("Employee " ++ e ++ " exceeds max work days in week " ++ toString w)
      else none

/-- Validator check 5: contract minutes on average over the distinct weeks of
the assignment table. -/
def check5_contract (workers : List Worker) (asg : List AssignRow) : List String :=
  let num_weeks := (asg.map fun r => r.week).dedup.length
  (asgEmps asg).filterMap fun e =>
    let cap := (getWorker workers e).contract_minutes
    let total : Int := (((rowsOfEmp asg e).map fun r => (r.duration_min : Int)).foldr (· + ·) 0)
    if cap * (num_weeks : Int) < total then
      some ("Employee " ++ e ++ " exceeds average contract hours")
    else none

/-- Validator check 6: no assigned shift overlapping an unavailability row
(full-day when a window end is missing). -/
def check6_unavailability (workers : List Worker) (onb : List OnbRow)
    (asg : List AssignRow) : List String :=
  onb.flatMap fun r =>
    if !(workers.any fun w => w.medewerker_id == r.emp) then []
    else if pyLower r.beschikbaarheid == "beschikbaar" then []
    else
      (asg.filter fun sr => sr.employee_id == some r.emp).flatMap fun sr =>
        if !(sr.shift_date == r.datum) then []
        else
          match r.tijd_vanaf, r.tijd_tm with
          | some a, some b =>
            if !(decide (sr.end_time ≤ a) || decide (sr.start_time ≥ b)) then
              ["Employee " ++ r.emp ++ " scheduled during unavailable time on day "
                ++ toString r.datum]
            else []
          | _, _ =>
            ["Employee " ++ r.emp ++ " scheduled on fully unavailable day "
              ++ toString r.datum]

/-- Validator check 7.1: windows of `max_consec + 1` night dates spanning
exactly `max_consec` days. -/
def check71_consecutive_nights (workers : List Worker) (asg : List AssignRow) : List String :=
  (asgEmps asg).flatMap fun e =>
    let dates := sortI (((rowsOfEmp asg e).filter fun r => r.is_night).map fun r => r.shift_date)
    let max_consec : Nat := if memS e (coa_7_1_exempt workers) then 7 else 5
    (List.range (dates.length - max_consec)).filterMap fun i =>
      let window := (dates.drop i).take (max_consec + 1)
      if window.getLastD 0 - window.headD 0 == (max_consec : Int) then
        some ("Employee " ++ e ++ " works more than " ++ toString max_consec
          ++ " consecutive nights")
      else none

/-- Validator check 7.2: 46 h rest after three consecutive night dates. -/
def check72_rest (asg : List AssignRow) : List String :=
  (asgEmps asg).flatMap fun e =>
    let g := rowsOfEmp asg e
    let night_dates := sortI ((g.filter fun r => r.is_night).map fun r => r.shift_date)
    (List.range (night_dates.length - 2)).filterMap fun i =>
      let d0 := night_dates.getD i 0
      let d1 := night_dates.getD (i + 1) 0
      let d2 := night_dates.getD (i + 2) 0
      if d1 == d0 + 1 && d2 == d1 + 1 then
        let next_day := d2 + 1
        if memI next_day night_dates then none
        else if !((g.filter fun r =>
            r.shift_date == next_day || r.shift_date == next_day + 1).isEmpty) then
          some ("Employee " ++ e ++ " has shifts within 46h rest after nights ending day "
            ++ toString d2)
        else none
      else none

/-- Validator check 7.3: at most 35 nights per 13 rolling weeks (note the
source iterates `range(min_week, max_week - 12)`). -/
def check73_rolling (shifts : List Shift) (asg : List AssignRow) : List String :=
  (asgEmps asg).flatMap fun e =>
    let emp_nights := (rowsOfEmp asg e).filter fun r => r.is_night
    (intRange (minI (shifts.map fun s => s.week)) (maxI (shifts.map fun s => s.week) - 12)).filterMap
      fun start_week =>
        let window := emp_nights.filter fun r =>
          decide (start_week ≤ r.week) && decide (r.week < start_week + 13)
        if 35 < window.length then
          some ("Employee " ++ e ++ " has more than 35 nights in weeks starting "
            ++ toString start_week)
        else none

/-- `CAO_7_4_exempt` of the validator: `voorkeur_nacht != 'niet'`. -/
def cao_7_4_exempt_validator (workers : List Worker) : List EmpId :=
  (workers.filter fun w => w.voorkeur_nacht != "niet").map (fun w => w.medewerker_id)

/-- Validator check 7.4: `leeftijd > 55` (strict) and any night assignment. -/
def check74_age (workers : List Worker) (asg : List AssignRow) : List String :=
  (asgEmps asg).filterMap fun e =>
    if memS e (cao_7_4_exempt_validator workers) then none
    else if decide (55 < (getWorker workers e).leeftijd)
        && (rowsOfEmp asg e).any (fun r => r.is_night) then
      some ("Employee " ++ e ++ " assigned to night shifts at age over 55")
    else none

/-- The `errors` list accumulated by `validate_auto_rooster` over the
dropna-ed assignment table. -/
def validate_errors (data : RoosterData) (result : RoosterResult) : List String :=
  let asg := result.assignments.filter fun r => r.employee_id.isSome
  check1_coverage asg
    ++ check2_one_per_day asg
    ++ check3_after_night asg
    ++ check4_max_days data.workers asg
    ++ check5_contract data.workers asg
    ++ check6_unavailability data.workers data.onb asg
    ++ check71_consecutive_nights data.workers asg
    ++ check72_rest asg
    ++ check73_rolling data.shifts asg
    ++ check74_age data.workers asg

/-- `validate_auto_rooster` builds and prints `errors` but has no `return`
statement, so the Python function always returns `None`. -/
def validate_auto_rooster (data : RoosterData) (result : RoosterResult) :
    Option (List String) :=
  let _errors := validate_errors data result
  none

/-! ### Web layer (`generate_schedule` in `web/app.py`) -/

/-- Outcome of the `/schedule` endpoint. -/
inductive WebResponse where
  | success (assignments : List AssignRow)
  | validationFailed (errors : List String)
  | internalError (msg : String)
  deriving Repr, DecidableEq, Inhabited

/-- `generate_schedule` after solving: `result["assignments_df"]` on a `None`
result raises `TypeError`, caught by the blanket `except` and returned as an
HTTP 500; otherwise `errors = validate_auto_rooster(...)` and `if errors:`
decides between 400 and success (a `None` error value is falsy). -/
def generate_schedule_response (data : RoosterData) (result : Option RoosterResult) :
    WebResponse :=
  match result with
  | none => WebResponse.internalError "TypeError"
  | some res =>
    match validate_auto_rooster data res with
    | none => WebResponse.success res.assignments
    | some errs =>
      if errs.isEmpty then WebResponse.success res.assignments
      else WebResponse.validationFailed errs

/-! ### Preprocessing fragments (`preprocess_data`) -/

/-- `df_onb['Beschikbaarheid'].fillna('Onbekend')`. -/
def fill_beschikbaarheid (kind : Option String) : String := kind.getD "Onbekend"

/-- One raw previous-assignment row as delivered (`Mw_id`, `Datum dienst`,
`Dienst starttijd`, `Dienst eindtijd`; times in minutes since midnight). -/
structure RawPrevRow where
  employee_id : EmpId
  shift_date : Int
  start_time : Nat
  end_time : Nat
  deriving Repr, DecidableEq, Inhabited

/-- `is_night` of a canonicalised previous assignment:
`start_time.hour >= 22 or start_time.hour < 6`. -/
def canon_prev_is_night (start_time : Nat) : Bool :=
  decide (22 ≤ start_time / 60) || decide (start_time / 60 < 6)

/-- Canonicalisation loop over the raw previous rows: `shift_id` is the
row index, `is_night` comes from the start hour, `week` is
`absolute_day // 7` from the earliest date.  (The source then sorts by date,
which permutes rows but not their fields.) -/
def canon_prev_go (i : Nat) (first_day : Int) : List RawPrevRow → List PrevRow
  | [] => []
  | r :: t =>
    { shift_id := i, shift_date := r.shift_date, employee_id := some r.employee_id,
      is_night := canon_prev_is_night r.start_time,
      week := (r.shift_date - first_day) / 7 } :: canon_prev_go (i + 1) first_day t

/-- The canonicalised `prev_assignments` table. -/
def canon_prev_rows (rows : List RawPrevRow) : List PrevRow :=
  canon_prev_go 0 (minI (rows.map fun r => r.shift_date)) rows

/-- One expanded weekly-template requirement (a `shift_requirements` entry). -/
structure TemplateReq where
  shift_name : String
  day_of_week : Nat
  start_time : Nat
  end_time : Nat
  qualification : List Int
  deriving Repr, DecidableEq, Inhabited

/-- `all_shift_instances`: one dated instance per week and template row, with
`duration_min` wrapped by +24 h when the end does not exceed the start and
`is_night` set iff `end_time - start_time` is negative (strictly). -/
def build_shift_instances (reqs : List TemplateReq) (num_weeks : Nat)
    (start_date : Int) (global_start_date : Int) : List Shift :=
  ((List.range num_weeks).flatMap fun week =>
    reqs.map fun row =>
      let d : Int := start_date + ((week : Int) * 7 + (row.day_of_week : Int))
      { shift_id := 0, shift_name := row.shift_name, shift_date := d,
        week := (week : Int) + 1, global_week := (d - global_start_date) / 7 + 1,
        day_of_week := row.day_of_week,
        absolute_day := (week : Int) * 7 + (row.day_of_week : Int),
        start_time := row.start_time, end_time := row.end_time,
        duration_min :=
          if row.end_time < row.start_time then row.end_time + 24 * 60 - row.start_time
          else row.end_time - row.start_time,
        qualification := row.qualification,
        is_night := decide (row.end_time < row.start_time) })

/-! ### Constant schedule integration -/

/-- One row of `df_vastrooster`. -/
structure VastRow where
  medewerker_id : EmpId
  weekvolgnr : Int
  dag : String
  dienst : String
  deriving Repr, DecidableEq, Inhabited

/-- `day_map_const`. -/
def day_map_const (dag : String) : Option Nat :=
  if dag == "maandag" then some 0
  else if dag == "dinsdag" then some 1
  else if dag == "woensdag" then some 2
  else if dag == "donderdag" then some 3
  else if dag == "vrijdag" then some 4
  else if dag == "zaterdag" then some 5
  else if dag == "zondag" then some 6
  else none

/-- `find_shift_id` applied to a constant-schedule row: the first catalogue
shift with the row's `dienst` name and weekday (a row whose weekday name is
unmapped gets `NaN` and matches nothing). -/
def find_shift (catalogue : List Shift) (r : VastRow) : Option Shift :=
  (day_map_const r.dag).bind fun dow =>
    (catalogue.filter fun s => s.shift_name == r.dienst && s.day_of_week == dow).head?

/-- The unavailability rows appended for the constant schedule: one full-day
entry (`00:00`–`23:59`) per row at
`start_date + (weekvolgnr - 1) * 7 + day_of_week`.  (Rows with an unmapped
weekday name get a `NaN` date in the source and are dropped here.) -/
def const_unavail_rows (start_date : Int) (vast : List VastRow) : List OnbRow :=
  vast.filterMap fun r =>
    (day_map_const r.dag).map fun dow =>
      { emp := r.medewerker_id,
        datum := start_date + (r.weekvolgnr - 1) * 7 + (dow : Int),
        beschikbaarheid := "Niet beschikbaar (constant schedule)",
        tijd_vanaf := some 0, tijd_tm := some (23 * 60 + 59) }

/-- `shift_ids` of the deduction loop: the matched (non-`NaN`) catalogue
shift ids of one worker's constant-schedule rows, in row order, repeats
kept. -/
def matched_shift_ids (catalogue : List Shift) (vast : List VastRow)
    (emp : EmpId) : List Nat :=
  (vast.filter fun r => r.medewerker_id == emp).filterMap
    fun r => (find_shift catalogue r).map fun s => s.shift_id

/-- The minutes subtracted from one worker's `contract_minutes`: the catalogue
durations of shifts whose id `isin` the worker's matched id list are summed —
each catalogue shift at most once, regardless of how many rows matched it. -/
def const_schedule_deduction (catalogue : List Shift) (vast : List VastRow)
    (emp : EmpId) : Nat :=
  let ids := matched_shift_ids catalogue vast emp
  ((catalogue.filter fun s => memN s.shift_id ids).map fun s => s.duration_min).sum

/-- Duration of the (first) catalogue shift with a given id, 0 when absent
(proof-support accessor for the deduction lemmas). -/
def durOf (catalogue : List Shift) (sid : Nat) : Nat :=
  ((catalogue.find? fun s => s.shift_id == sid).map fun s => s.duration_min).getD 0

/-- Per-row matched durations of one worker (the sum the claim about the
constant schedule asserts: every row counted, repeats included). -/
def const_schedule_row_durations (catalogue : List Shift) (vast : List VastRow)
    (emp : EmpId) : List Nat :=
  (vast.filter fun r => r.medewerker_id == emp).filterMap
    fun r => (find_shift catalogue r).map fun s => s.duration_min

/-! ### Concrete instances used to settle the claims -/

/-- A shift-row literal (qualification level 1 throughout the instances). -/
def mkShift (sid : Nat) (name : String) (d : Int) (w : Int) (dow : Nat)
    (st en dur : Nat) (night : Bool) : Shift :=
  { shift_id := sid, shift_name := name, shift_date := d, week := w, global_week := w,
    day_of_week := dow, absolute_day := d, start_time := st, end_time := en,
    duration_min := dur, qualification := [1], is_night := night }

/-- A worker-row literal (7 work days, ample contract, level 1). -/
def mkWorker (id : EmpId) (age : Int) (nacht : String) (vnacht : String) : Worker :=
  { medewerker_id := id, medewerker_naam := id, max_days_per_week := 7,
    contract_minutes := 100000, leeftijd := age, deskundigheid := [1],
    nachten := nacht, voorkeur_nacht := vnacht, wensen := "", patroon := [] }

/-- C1 witness instance: one day shift, one worker, the worker assigned. -/
def w1Data : RoosterData :=
  { shifts := [mkShift 0 "D1" 0 1 0 480 960 480 false],
    workers := [mkWorker "w1" 30 "overig" "overig"], onb := [],
    emp_ids := ["w1"], weeks := [1], prev := [] }

/-- C1 witness solution. -/
def w1X : Nat → EmpId → Bool := fun sid e => sid == 0 && e == "w1"

/-- C1 witness slack. -/
def w1U : Nat → Bool := fun _ => false

/-- C2 instance: five consecutive night shifts on days 0–4.  The worker's
previous roster ends with a night on day −1, so days −1…4 are six consecutive
worked nights. -/
def c2Data : RoosterData :=
  { shifts := [mkShift 0 "N" 0 1 0 1380 420 600 true,
               mkShift 1 "N" 1 1 1 1380 420 600 true,
               mkShift 2 "N" 2 1 2 1380 420 600 true,
               mkShift 3 "N" 3 1 3 1380 420 600 true,
               mkShift 4 "N" 4 1 4 1380 420 600 true],
    workers := [mkWorker "e1" 30 "overig" "overig"], onb := [],
    emp_ids := ["e1"], weeks := [1],
    prev := [{ shift_id := 100, shift_date := -1, employee_id := some "e1",
               is_night := true, week := 0 }] }

/-- C2 solution: all five horizon nights assigned to `e1`. -/
def c2X : Nat → EmpId → Bool := fun sid e => decide (sid < 5) && e == "e1"

/-- C2 slack. -/
def c2U : Nat → Bool := fun _ => false

/-- C3 counterexample instance: nights on days 0, 1, 2, no shift at all on
day 3, and a day shift on day 4. -/
def c3Data : RoosterData :=
  { shifts := [mkShift 0 "N" 0 1 0 1380 420 600 true,
               mkShift 1 "N" 1 1 1 1380 420 600 true,
               mkShift 2 "N" 2 1 2 1380 420 600 true,
               mkShift 3 "D1" 4 1 4 480 960 480 false],
    workers := [mkWorker "e1" 30 "overig" "overig"], onb := [],
    emp_ids := ["e1"], weeks := [1], prev := [] }

/-- The day-4 shift of the C3 counterexample. -/
def c3s3 : Shift := mkShift 3 "D1" 4 1 4 480 960 480 false

/-- C3 counterexample solution: all four shifts assigned to `e1`. -/
def c3X : Nat → EmpId → Bool := fun sid e => decide (sid < 4) && e == "e1"

/-- C3 counterexample slack. -/
def c3U : Nat → Bool := fun _ => false

/-- C3 witness instance: nights on days 0–2 and a day shift on day 3 for
`w1`; a second worker `w2` whose previous roster ends with the night block
−3…−1. -/
def w3Data : RoosterData :=
  { shifts := [mkShift 0 "N" 0 1 0 1380 420 600 true,
               mkShift 1 "N" 1 1 1 1380 420 600 true,
               mkShift 2 "N" 2 1 2 1380 420 600 true,
               mkShift 3 "D1" 3 1 3 480 960 480 false],
    workers := [mkWorker "w1" 30 "overig" "overig", mkWorker "w2" 30 "overig" "overig"],
    onb := [], emp_ids := ["w1", "w2"], weeks := [1],
    prev := [{ shift_id := 200, shift_date := -3, employee_id := some "w2",
               is_night := true, week := 0 },
             { shift_id := 201, shift_date := -2, employee_id := some "w2",
               is_night := true, week := 0 },
             { shift_id := 202, shift_date := -1, employee_id := some "w2",
               is_night := true, week := 0 }] }

/-- C3 witness solution: `w1` takes the three nights, the day shift stays
uncovered. -/
def w3X : Nat → EmpId → Bool := fun sid e => decide (sid < 3) && e == "w1"

/-- C3 witness slack. -/
def w3U : Nat → Bool := fun sid => sid == 3

/-- C4 counterexample instance: the previous roster holds 31 consecutive
nights (days −36…−6) and the 4-week horizon (a single populated week) holds
five more nights on days 0–4; the 13-week window of days −42…48 then carries
36 nights. -/
def c4Data : RoosterData :=
  { shifts := [mkShift 0 "N" 0 1 0 1380 420 600 true,
               mkShift 1 "N" 1 1 1 1380 420 600 true,
               mkShift 2 "N" 2 1 2 1380 420 600 true,
               mkShift 3 "N" 3 1 3 1380 420 600 true,
               mkShift 4 "N" 4 1 4 1380 420 600 true],
    workers := [mkWorker "e1" 30 "overig" "overig"], onb := [],
    emp_ids := ["e1"], weeks := [1],
    prev := (List.range 31).map fun i =>
      { shift_id := 100 + i, shift_date := -36 + (i : Int), employee_id := some "e1",
        is_night := true, week := 0 } }

/-- C4 counterexample solution. -/
def c4X : Nat → EmpId → Bool := fun sid e => decide (sid < 5) && e == "e1"

/-- C4 counterexample slack. -/
def c4U : Nat → Bool := fun _ => false

/-- C4 witness instance: a 13-week horizon with one night per week. -/
def w4Data : RoosterData :=
  { shifts := (List.range 13).map fun i =>
      mkShift i "N" (7 * (i : Int)) ((i : Int) + 1) 0 1380 420 600 true,
    workers := [mkWorker "e1" 30 "overig" "overig"], onb := [],
    emp_ids := ["e1"], weeks := (List.range 13).map fun i => (i : Int) + 1,
    prev := [] }

/-- C4 witness solution: all 13 nights assigned. -/
def w4X : Nat → EmpId → Bool := fun sid e => decide (sid < 13) && e == "e1"

/-- C4 witness slack. -/
def w4U : Nat → Bool := fun _ => false

/-- An assignment-table row literal for the validator instances. -/
def mkRow (sid : Nat) (name : String) (d : Int) (w : Int) (st en dur : Nat)
    (night : Bool) (e : EmpId) : AssignRow :=
  { shift_id := sid, shift_name := name, shift_date := d, week := w, day_of_week := 0,
    start_time := st, end_time := en, duration_min := dur, is_night := night,
    employee_id := some e, shift_filled := true }

/-- C5 instance data. -/
def c5Data : RoosterData :=
  { shifts := [mkShift 0 "D1" 0 1 0 480 960 480 false],
    workers := [mkWorker "e1" 30 "overig" "overig", mkWorker "e2" 30 "overig" "overig"],
    onb := [], emp_ids := ["e1", "e2"], weeks := [1], prev := [] }

/-- C5 violating result: shift 0 assigned to two employees at once. -/
def c5Result : RoosterResult :=
  { assignments := [mkRow 0 "D1" 0 1 480 960 480 false "e1",
                    mkRow 0 "D1" 0 1 480 960 480 false "e2"],
    uncovered := [], solver_status := "OPTIMAL" }

/-- C6 instance: a single 55-year-old worker with `nachten = 'niet'` and
`voorkeur_nacht = 'niet'`, and one night shift. -/
def c6Data : RoosterData :=
  { shifts := [mkShift 0 "N" 0 1 0 1380 420 600 true],
    workers := [mkWorker "e1" 55 "niet" "niet"], onb := [],
    emp_ids := ["e1"], weeks := [1], prev := [] }

/-- C6 solution: the 55-year-old takes the night shift. -/
def c6X : Nat → EmpId → Bool := fun sid e => sid == 0 && e == "e1"

/-- C6 result as extracted from that solution. -/
def c6Result : RoosterResult :=
  { assignments := extract_assignments c6Data.shifts c6Data.emp_ids c6X,
    uncovered := [], solver_status := "OPTIMAL" }

/-- C7 instance data (contents are irrelevant to the status handling). -/
def c7Data : RoosterData :=
  { shifts := [], workers := [], onb := [], emp_ids := [], weeks := [], prev := [] }

/-- C7 solution stub. -/
def c7X : Nat → EmpId → Bool := fun _ _ => false

/-- C8 counterexample rows: a previous shift 20:00–04:00 (crosses midnight,
start hour 20) and a template shift 08:00–08:00 (`end ≤ start`). -/
def c8RawRow : RawPrevRow :=
  { employee_id := "e1", shift_date := 0, start_time := 1200, end_time := 240 }

/-- C8 counterexample template row. -/
def c8Req : TemplateReq :=
  { shift_name := "D1", day_of_week := 0, start_time := 480, end_time := 480,
    qualification := [3] }

/-- C8 witness template row (a 23:00–07:00 night). -/
def c8wReq : TemplateReq :=
  { shift_name := "N", day_of_week := 0, start_time := 1380, end_time := 420,
    qualification := [3] }

/-- C8 witness previous row. -/
def c8wRaw : RawPrevRow :=
  { employee_id := "e1", shift_date := 5, start_time := 1380, end_time := 420 }

/-- C9 counterexample catalogue: a single Monday `KOK` shift of 480 min. -/
def c9Cat : List Shift := [mkShift 0 "KOK" 0 1 0 480 960 480 false]

/-- C9 counterexample constant schedule: the same worker, the same `KOK`
Monday shift in weeks 1 and 2. -/
def c9Vast : List VastRow :=
  [{ medewerker_id := "w1", weekvolgnr := 1, dag := "maandag", dienst := "KOK" },
   { medewerker_id := "w1", weekvolgnr := 2, dag := "maandag", dienst := "KOK" }]

/-- C9 witness catalogue: distinct `KOK` and `FM` shifts. -/
def c9wCat : List Shift :=
  [mkShift 0 "KOK" 0 1 0 480 960 480 false, mkShift 1 "FM" 0 1 0 600 900 300 false]

/-- C9 witness constant schedule: two rows matching the two distinct
shifts. -/
def c9wVast : List VastRow :=
  [{ medewerker_id := "w1", weekvolgnr := 1, dag := "maandag", dienst := "KOK" },
   { medewerker_id := "w1", weekvolgnr := 1, dag := "maandag", dienst := "FM" }]

/-- C10 witness instance: one unavailability row with a filled-in missing
kind (`Onbekend`) and no time window, over a single day shift. -/
def c10Data : RoosterData :=
  { shifts := [mkShift 0 "D1" 0 1 0 480 960 480 false],
    workers := [mkWorker "e1" 30 "overig" "overig"],
    onb := [{ emp := "e1", datum := 0, beschikbaarheid := "Onbekend",
              tijd_vanaf := none, tijd_tm := none }],
    emp_ids := ["e1"], weeks := [1], prev := [] }

/-- C10 witness solution: nothing assigned, the shift uncovered. -/
def c10X : Nat → EmpId → Bool := fun _ _ => false

/-- C10 witness slack. -/
def c10U : Nat → Bool := fun sid => sid == 0

/-- C10 violating result for the validator part: the shift assigned to the
unavailable worker. -/
def c10Res2 : RoosterResult :=
  { assignments := [mkRow 0 "D1" 0 1 480 960 480 false "e1"],
    uncovered := [], solver_status := "OPTIMAL" }

/-! ### Basic lemmas about the helpers -/

theorem memI_iff {d : Int} {l : List Int} : memI d l = true ↔ d ∈ l := by
  induction l with
  | nil => simp [memI]
  | cons a t ih =>
    simp only [memI, Bool.or_eq_true, beq_iff_eq, ih, List.mem_cons]
    exact or_congr_left eq_comm

theorem memS_iff {e : EmpId} {l : List EmpId} : memS e l = true ↔ e ∈ l := by
  induction l with
  | nil => simp [memS]
  | cons a t ih =>
    simp only [memS, Bool.or_eq_true, beq_iff_eq, ih, List.mem_cons]
    exact or_congr_left eq_comm

theorem memN_iff {n : Nat} {l : List Nat} : memN n l = true ↔ n ∈ l := by
  induction l with
  | nil => simp [memN]
  | cons a t ih =>
    simp only [memN, Bool.or_eq_true, beq_iff_eq, ih, List.mem_cons]
    exact or_congr_left eq_comm

theorem sortI_perm (l : List Int) : List.Perm (sortI l) l := List.perm_insertionSort _ l

theorem mem_sortI {d : Int} {l : List Int} : d ∈ sortI l ↔ d ∈ l :=
  (sortI_perm l).mem_iff

theorem sortI_sorted (l : List Int) : (sortI l).Sorted (· ≤ ·) :=
  List.sorted_insertionSort _ l

theorem sortI_nodup {l : List Int} (h : l.Nodup) : (sortI l).Nodup :=
  ((sortI_perm l).nodup_iff).mpr h

theorem sortI_dedup_pairwise_lt (l : List Int) : (sortI l.dedup).Pairwise (· < ·) := by
  have hs : (sortI l.dedup).Pairwise (· ≤ ·) := sortI_sorted l.dedup
  have hn : (sortI l.dedup).Pairwise (· ≠ ·) := sortI_nodup l.nodup_dedup
  exact (hs.and hn).imp fun h => lt_of_le_of_ne h.1 h.2

theorem datesList_pairwise_lt (shifts : List Shift) :
    (datesList shifts).Pairwise (· < ·) := sortI_dedup_pairwise_lt _

theorem mem_datesList {shifts : List Shift} {d : Int} :
    d ∈ datesList shifts ↔ ∃ s ∈ shifts, s.shift_date = d := by
  simp [datesList, mem_sortI, List.mem_dedup, List.mem_map]

theorem getD_of_get? {α : Type} {l : List α} {n : Nat} {a : α} (d : α)
    (h : l.get? n = some a) : l.getD n d = a := by
  rw [List.getD_eq_getElem?_getD, ← List.get?_eq_getElem?, h]; rfl

theorem mem_intRange {w a b : Int} : w ∈ intRange a b ↔ a ≤ w ∧ w < b := by
  have h0 : (((b - a).toNat : Nat) : Int) = max (b - a) 0 := Int.toNat_eq_max _
  simp only [intRange, List.mem_map, List.mem_range]
  constructor
  · rintro ⟨i, hi, rfl⟩
    have hi' : ((i : Nat) : Int) < (((b - a).toNat : Nat) : Int) := by exact_mod_cast hi
    omega
  · rintro ⟨h1, h2⟩
    have h1' : (((w - a).toNat : Nat) : Int) = max (w - a) 0 := Int.toNat_eq_max _
    refine ⟨(w - a).toNat, ?_, ?_⟩
    · have : (((w - a).toNat : Nat) : Int) < (((b - a).toNat : Nat) : Int) := by omega
      exact_mod_cast this
    · omega

theorem intRange_nodup (a b : Int) : (intRange a b).Nodup := by
  unfold intRange
  refine List.Nodup.map ?_ (List.nodup_range _)
  intro i j h
  have h' : a + (i : Int) = a + (j : Int) := h
  omega

/-- In a strictly increasing list three consecutive integer values sit at
three consecutive positions. -/
theorem pairwise_lt_adjacent3 :
    ∀ {l : List Int}, l.Pairwise (· < ·) → ∀ {d : Int}, d ∈ l → d + 1 ∈ l → d + 2 ∈ l →
      ∃ j, l.get? j = some d ∧ l.get? (j + 1) = some (d + 1) ∧ l.get? (j + 2) = some (d + 2) := by
  intro l
  induction l with
  | nil => intro _ d h0; simp at h0
  | cons a t ih =>
    intro hp d h0 h1 h2
    have ha : ∀ b ∈ t, a < b := (List.pairwise_cons.mp hp).1
    have ht : t.Pairwise (· < ·) := (List.pairwise_cons.mp hp).2
    by_cases hda : d = a
    · subst hda
      have h1t : d + 1 ∈ t := by
        rcases List.mem_cons.mp h1 with h | h
        · omega
        · exact h
      have h2t : d + 2 ∈ t := by
        rcases List.mem_cons.mp h2 with h | h
        · omega
        · exact h
      cases t with
      | nil => simp at h1t
      | cons b t' =>
        have htb : ∀ c ∈ t', b < c := (List.pairwise_cons.mp ht).1
        have hb : b = d + 1 := by
          rcases List.mem_cons.mp h1t with h | h
          · omega
          · have hblt : b < d + 1 := htb _ h
            have : d < b := ha b (List.mem_cons_self b t')
            omega
        have h2t' : d + 2 ∈ t' := by
          rcases List.mem_cons.mp h2t with h | h
          · omega
          · exact h
        cases t' with
        | nil => simp at h2t'
        | cons c t'' =>
          have hc : c = d + 2 := by
            rcases List.mem_cons.mp h2t' with h | h
            · omega
            · have : c < d + 2 := ((List.pairwise_cons.mp (List.pairwise_cons.mp ht).2).1) _ h
              have : b < c := htb c (List.mem_cons_self c t'')
              omega
          exact ⟨0, rfl, by simp [hb], by simp [hc]⟩
    · have h0t : d ∈ t := by
        rcases List.mem_cons.mp h0 with h | h
        · exact absurd h hda
        · exact h
      have h1t : d + 1 ∈ t := by
        rcases List.mem_cons.mp h1 with h | h
        · have : a < d := ha d h0t
          omega
        · exact h
      have h2t : d + 2 ∈ t := by
        rcases List.mem_cons.mp h2 with h | h
        · have : a < d := ha d h0t
          omega
        · exact h
      obtain ⟨j, hj0, hj1, hj2⟩ := ih ht h0t h1t h2t
      exact ⟨j + 1, hj0, hj1, hj2⟩

theorem countP_ext {α : Type} (p q : α → Bool) :
    ∀ (l : List α), (∀ a ∈ l, p a = q a) → l.countP p = l.countP q := by
  intro l
  induction l with
  | nil => intro _; rfl
  | cons a t ih =>
    intro h
    rw [List.countP_cons, List.countP_cons, ih (fun b hb => h b (List.mem_cons_of_mem a hb)),
      h a (List.mem_cons_self a t)]

theorem countP_or_disjoint {α : Type} (p q : α → Bool) :
    ∀ (l : List α), (∀ a ∈ l, ¬(p a = true ∧ q a = true)) →
      l.countP (fun a => p a || q a) = l.countP p + l.countP q := by
  intro l
  induction l with
  | nil => intro _; rfl
  | cons a t ih =>
    intro h
    rw [List.countP_cons, List.countP_cons, List.countP_cons,
      ih (fun b hb => h b (List.mem_cons_of_mem a hb))]
    have := h a (List.mem_cons_self a t)
    cases hp : p a <;> cases hq : q a <;> simp [hp, hq] at this ⊢ <;> omega

/-! ### Accessors into the constraint conjunction -/

theorem constraints_coverage {data : RoosterData} {x : Nat → EmpId → Bool} {u : Nat → Bool}
    (h : auto_rooster_constraints data x u = true) : coverage_ok data x u = true := by
  simp only [auto_rooster_constraints, Bool.and_eq_true] at h
  tauto

theorem constraints_unavailability {data : RoosterData} {x : Nat → EmpId → Bool}
    {u : Nat → Bool} (h : auto_rooster_constraints data x u = true) :
    unavailability_ok data x = true := by
  simp only [auto_rooster_constraints, Bool.and_eq_true] at h
  tauto

theorem constraints_c72 {data : RoosterData} {x : Nat → EmpId → Bool} {u : Nat → Bool}
    (h : auto_rooster_constraints data x u = true) :
    c72_rest_after_nights_ok data x = true := by
  simp only [auto_rooster_constraints, Bool.and_eq_true] at h
  tauto

theorem constraints_c73 {data : RoosterData} {x : Nat → EmpId → Bool} {u : Nat → Bool}
    (h : auto_rooster_constraints data x u = true) :
    c73_rolling_13_weeks_ok data x = true := by
  simp only [auto_rooster_constraints, Bool.and_eq_true] at h
  tauto

/-! ### Shared extraction helpers -/

/-- A date on which the employee works a night is a horizon shift date. -/
theorem mem_datesList_of_nOn {shifts : List Shift} {x : Nat → EmpId → Bool} {e : EmpId}
    {d : Int} (h : nOn shifts x e d = true) : d ∈ datesList shifts := by
  obtain ⟨s, hs, -⟩ := List.any_eq_true.mp h
  have hm := List.mem_filter.mp hs
  refine mem_datesList.mpr ⟨s, hm.1, ?_⟩
  have h2 := hm.2
  simp only [Bool.and_eq_true, beq_iff_eq] at h2
  exact h2.1

/-- A satisfied per-date blocking constraint kills the assignment of every
shift of that date. -/
theorem x_eq_false_of_blocked {shifts : List Shift} {x : Nat → EmpId → Bool} {e : EmpId}
    {bd : Int}
    (hall : ((shiftsOnDate shifts bd).all fun s => x s.shift_id e == false) = true)
    {s : Shift} (hs : s ∈ shifts) (hd : s.shift_date = bd) : x s.shift_id e = false := by
  have hmem : s ∈ shiftsOnDate shifts bd := List.mem_filter.mpr ⟨hs, by simp [hd]⟩
  simpa using List.all_eq_true.mp hall s hmem

/-- The `for k in [1, 2]` blocking loop of constraint 7.2 kills every shift
dated `base + 1` or `base + 2`. -/
theorem blocked_pair {shifts : List Shift} {x : Nat → EmpId → Bool} {e : EmpId} {base : Int}
    (hall : (([1, 2] : List Int).all fun k =>
      if memI (base + k) (datesList shifts) then
        (shiftsOnDate shifts (base + k)).all fun s => x s.shift_id e == false
      else true) = true)
    {s : Shift} (hs : s ∈ shifts)
    (hd : s.shift_date = base + 1 ∨ s.shift_date = base + 2) :
    x s.shift_id e = false := by
  rcases hd with hd | hd
  · have h1 := List.all_eq_true.mp hall 1 (by simp)
    have hm : memI (base + 1) (datesList shifts) = true :=
      memI_iff.mpr (mem_datesList.mpr ⟨s, hs, hd⟩)
    rw [if_pos hm] at h1
    exact x_eq_false_of_blocked h1 hs hd
  · have h2 := List.all_eq_true.mp hall 2 (by simp)
    have hm : memI (base + 2) (datesList shifts) = true :=
      memI_iff.mpr (mem_datesList.mpr ⟨s, hs, hd⟩)
    rw [if_pos hm] at h2
    exact x_eq_false_of_blocked h2 hs hd

/-! ### C1 -/

/-- C1: in every solution the model accepts, each shift is either covered by
exactly one worker (and the extracted row carries that worker with
`shift_filled = true`) or marked uncovered by the slack (and the extracted
row carries no worker and `shift_filled = false`) — never both, never two
workers. -/
theorem C1_coverage_extraction (data : RoosterData) (x : Nat → EmpId → Bool)
    (u : Nat → Bool) (h : auto_rooster_constraints data x u = true) :
    ∀ s ∈ data.shifts,
      (u s.shift_id = true
        ∧ (extract_row data.emp_ids x s).employee_id = none
        ∧ (extract_row data.emp_ids x s).shift_filled = false
        ∧ data.emp_ids.countP (fun e => x s.shift_id e) = 0)
      ∨ (u s.shift_id = false
        ∧ data.emp_ids.countP (fun e => x s.shift_id e) = 1
        ∧ ∃ e, (extract_row data.emp_ids x s).employee_id = some e
            ∧ (extract_row data.emp_ids x s).shift_filled = true
            ∧ x s.shift_id e = true ∧ e ∈ data.emp_ids) := by
  intro s hs
  have hc := constraints_coverage h
  have hcs := List.all_eq_true.mp hc s hs
  cases hu : u s.shift_id with
  | true =>
    left
    have hcount : data.emp_ids.countP (fun e => x s.shift_id e) = 0 := by
      simp only [hu, cond_true, beq_iff_eq] at hcs
      omega
    have hnone : data.emp_ids.find? (fun e => x s.shift_id e) = none :=
      List.find?_eq_none.mpr fun e hmem hx =>
        (List.countP_eq_zero.mp hcount e hmem) hx
    exact ⟨rfl, by simp [extract_row, hnone], by simp [extract_row, hnone], hcount⟩
  | false =>
    right
    have hcount : data.emp_ids.countP (fun e => x s.shift_id e) = 1 := by
      simp only [hu, cond_false, beq_iff_eq] at hcs
      omega
    have hpos : 0 < data.emp_ids.countP (fun e => x s.shift_id e) := by omega
    obtain ⟨e0, he0, hx0⟩ := List.countP_pos_iff.mp hpos
    have hsome : (data.emp_ids.find? (fun e => x s.shift_id e)).isSome :=
      List.find?_isSome.mpr ⟨e0, he0, hx0⟩
    obtain ⟨e, he⟩ := Option.isSome_iff_exists.mp hsome
    exact ⟨rfl, hcount, e, by simp [extract_row, he], by simp [extract_row, he],
      List.find?_some he, List.mem_of_find?_eq_some he⟩

/-- Witness for C1 at the one-shift / one-worker instance. -/
theorem C1_coverage_extraction_witness :
    auto_rooster_constraints w1Data w1X w1U = true
    ∧ ((w1U (w1Data.shifts.headD default).shift_id = true
        ∧ (extract_row w1Data.emp_ids w1X (w1Data.shifts.headD default)).employee_id = none
        ∧ (extract_row w1Data.emp_ids w1X (w1Data.shifts.headD default)).shift_filled = false
        ∧ w1Data.emp_ids.countP
            (fun e => w1X (w1Data.shifts.headD default).shift_id e) = 0)
      ∨ (w1U (w1Data.shifts.headD default).shift_id = false
        ∧ w1Data.emp_ids.countP
            (fun e => w1X (w1Data.shifts.headD default).shift_id e) = 1
        ∧ ∃ e, (extract_row w1Data.emp_ids w1X
              (w1Data.shifts.headD default)).employee_id = some e
            ∧ (extract_row w1Data.emp_ids w1X
                (w1Data.shifts.headD default)).shift_filled = true
            ∧ w1X (w1Data.shifts.headD default).shift_id e = true
            ∧ e ∈ w1Data.emp_ids)) :=
  ⟨by decide,
    C1_coverage_extraction w1Data w1X w1U (by decide) (w1Data.shifts.headD default) (by decide)⟩

/-! ### C2 -/

/-- C2: the constraint-7.1 windows never count the prior-tail nights.  At
this instance the model accepts an assignment although the six consecutive
dates −1…4 (a `cap + 1` window for the default `cap = 5`) carry six worked
nights: the prior-tail night on day −1 plus five assigned horizon nights. -/
theorem C2_tail_window_not_counted :
    auto_rooster_constraints c2Data c2X c2U = true
    ∧ ¬ ((get_last_consecutive_block_dates c2Data.prev "e1" true).countP
          (fun d => decide (-1 ≤ d) && decide (d ≤ 4))
        + c2Data.shifts.countP
          (fun s => s.is_night && decide (-1 ≤ s.shift_date) && decide (s.shift_date ≤ 4)
            && c2X s.shift_id "e1") ≤ 5) :=
  ⟨by decide, by decide⟩

/-! ### C3 -/

/-- Counterexample for C3 as stated: the model accepts a solution with nights
on the three consecutive days 0, 1, 2, no night on day 3, and yet a shift
assigned on day 4 (= `d2 + 2`), because day 3 carries no shift at all and the
source skips the triple when `d2 + 1` is not a horizon date. -/
theorem C3_counterexample_day4_shift :
    auto_rooster_constraints c3Data c3X c3U = true
    ∧ nOn c3Data.shifts c3X "e1" 0 = true
    ∧ nOn c3Data.shifts c3X "e1" 1 = true
    ∧ nOn c3Data.shifts c3X "e1" 2 = true
    ∧ nOn c3Data.shifts c3X "e1" 3 = false
    ∧ c3s3 ∈ c3Data.shifts
    ∧ c3s3.shift_date = 4
    ∧ c3X c3s3.shift_id "e1" = true := by
  refine ⟨by decide, by decide, by decide, by decide, by decide, by decide, by decide, by decide⟩

/-- C3 (amended): in every accepted solution, if a worker works nights on
three consecutive dates `d, d+1, d+2`, works no night on `d+3`, and `d+3` is
a horizon shift date, then the worker is assigned nothing dated `d+3` or
`d+4`; and if the worker's prior tail is a night block of length ≥ 3 ending
at `dprev`, the worker is assigned nothing dated `dprev+1` or `dprev+2`. -/
theorem C3_rest_after_night_blocks (data : RoosterData) (x : Nat → EmpId → Bool)
    (u : Nat → Bool) (e : EmpId) (h : auto_rooster_constraints data x u = true)
    (he : e ∈ data.emp_ids) :
    (∀ d : Int,
      nOn data.shifts x e d = true → nOn data.shifts x e (d + 1) = true →
      nOn data.shifts x e (d + 2) = true → nOn data.shifts x e (d + 3) = false →
      (d + 3) ∈ datesList data.shifts →
      ∀ s ∈ data.shifts, s.shift_date = d + 3 ∨ s.shift_date = d + 4 →
        x s.shift_id e = false)
    ∧ (∀ dprev : Int,
      3 ≤ (get_last_consecutive_block_dates data.prev e true).length →
      (get_last_consecutive_block_dates data.prev e true).getLast? = some dprev →
      ∀ s ∈ data.shifts, s.shift_date = dprev + 1 ∨ s.shift_date = dprev + 2 →
        x s.shift_id e = false) := by
  have hc := constraints_c72 h
  rw [c72_rest_after_nights_ok] at hc
  have hce := List.all_eq_true.mp hc e he
  rw [Bool.and_eq_true] at hce
  obtain ⟨htail, hhor⟩ := hce
  constructor
  · intro d h0 h1 h2 h3 hmem s hs hdate
    obtain ⟨j, hj0, hj1, hj2⟩ :=
      pairwise_lt_adjacent3 (datesList_pairwise_lt data.shifts)
        (mem_datesList_of_nOn h0) (mem_datesList_of_nOn h1) (mem_datesList_of_nOn h2)
    have hlt : j + 2 < (datesList data.shifts).length :=
      (List.get?_eq_some.mp hj2).1
    have happ := List.all_eq_true.mp hhor (j + 2) (List.mem_range.mpr hlt)
    rw [if_neg (by omega)] at happ
    have e2 : (datesList data.shifts).getD (j + 2) 0 = d + 2 := getD_of_get? 0 hj2
    have e1 : (datesList data.shifts).getD (j + 2 - 1) 0 = d + 1 := getD_of_get? 0 hj1
    have e0 : (datesList data.shifts).getD (j + 2 - 2) 0 = d := getD_of_get? 0 hj0
    simp only [e0, e1, e2] at happ
    have h31 : d + 2 + 1 = d + 3 := by ring
    rw [h31] at happ
    have hmemI : memI (d + 3) (datesList data.shifts) = true := memI_iff.mpr hmem
    rw [if_neg (by simp [hmemI])] at happ
    rw [if_pos (by simp [h0, h1, h2, h3, h31])] at happ
    refine blocked_pair happ hs ?_
    rcases hdate with hd | hd
    · left; omega
    · right; omega
  · intro dprev hlen hlast s hs hdate
    rw [if_pos hlen] at htail
    have hlastD : (get_last_consecutive_block_dates data.prev e true).getLastD 0 = dprev := by
      rw [List.getLastD_eq_getLast?, hlast]; rfl
    rw [hlastD] at htail
    exact blocked_pair htail hs hdate

/-- Witness for C3 (amended): `w1` works nights on days 0–2 and day 3 is a
horizon shift date, so the day-3 shift is forced off `w1`; `w2` has a prior
night block −3…−1, so the day-0 shift is forced off `w2`. -/
theorem C3_rest_after_night_blocks_witness :
    auto_rooster_constraints w3Data w3X w3U = true
    ∧ w3X 3 "w1" = false
    ∧ w3X 0 "w2" = false := by
  refine ⟨by decide, ?_, ?_⟩
  · exact (C3_rest_after_night_blocks w3Data w3X w3U "w1" (by decide) (by decide)).1
      0 (by decide) (by decide) (by decide) (by decide) (by decide)
      (w3Data.shifts.getD 3 default) (by decide) (by decide)
  · exact (C3_rest_after_night_blocks w3Data w3X w3U "w2" (by decide) (by decide)).2
      (-1) (by decide) (by decide)
      (w3Data.shifts.getD 0 default) (by decide) (by decide)

/-! ### C4 -/

theorem isEmpty_false_of_mem {α : Type} {l : List α} {a : α} (h : a ∈ l) :
    l.isEmpty = false := by
  cases l with
  | nil => simp at h
  | cons b t => rfl

/-- Counting assigned nights through the per-week index equals counting them
directly over the shifts table. -/
theorem countP_nights_flatMap (shifts : List Shift) (x : Nat → EmpId → Bool) (e : EmpId) :
    ∀ ww : List Int, ww.Nodup →
      ((ww.flatMap fun w => (nightShiftsOfWeek shifts w).map fun s => s.shift_id).countP
          fun sid => x sid e)
        = shifts.countP fun s => s.is_night && memI s.week ww && x s.shift_id e := by
  intro ww
  induction ww with
  | nil =>
    intro _
    have : shifts.countP (fun s => s.is_night && memI s.week ([] : List Int)
        && x s.shift_id e) = 0 := by
      rw [List.countP_eq_zero]
      intro a _
      simp [memI]
    simp [this]
  | cons w t ih =>
    intro hnd
    rw [List.flatMap_cons, List.countP_append, List.countP_map, ih (List.Nodup.of_cons hnd)]
    simp only [nightShiftsOfWeek]
    rw [List.countP_filter]
    have hw : w ∉ t := (List.nodup_cons.mp hnd).1
    have hsplit : shifts.countP
          (fun s => s.is_night && memI s.week (w :: t) && x s.shift_id e)
        = shifts.countP
            (fun s => (((fun sid => x sid e) ∘ fun s => s.shift_id) s
                && ((fun s => s.week == w && s.is_night) s))
              || (s.is_night && memI s.week t && x s.shift_id e)) := by
      apply countP_ext
      intro a _
      rw [Bool.eq_iff_iff]
      simp only [memI, Function.comp, Bool.and_eq_true, Bool.or_eq_true, beq_iff_eq]
      constructor
      · rintro ⟨⟨hn, hm⟩, hx⟩
        rcases hm with hm | hm
        · exact Or.inl ⟨hx, hm.symm, hn⟩
        · exact Or.inr ⟨⟨hn, hm⟩, hx⟩
      · rintro (⟨hx, hm, hn⟩ | ⟨⟨hn, hm⟩, hx⟩)
        · exact ⟨⟨hn, Or.inl hm.symm⟩, hx⟩
        · exact ⟨⟨hn, Or.inr hm⟩, hx⟩
    rw [hsplit, countP_or_disjoint]
    intro a _
    rintro ⟨h1, h2⟩
    simp only [Function.comp, Bool.and_eq_true, beq_iff_eq] at h1 h2
    exact hw (by rw [← h1.2.1]; exact memI_iff.mp h2.1.2)

/-- C4 (amended): in every accepted solution, for every 13-week window of
week numbers lying entirely inside the horizon's week range and containing at
least one night shift, the nights assigned to a worker in the window plus the
worker's previous night rows whose week number falls in the window total at
most 35. -/
theorem C4_rolling_13_week_cap (data : RoosterData) (x : Nat → EmpId → Bool)
    (u : Nat → Bool) (e : EmpId) (h : auto_rooster_constraints data x u = true)
    (he : e ∈ data.emp_ids) :
    ∀ sw : Int, sw ∈ intRange (minI data.weeks) (maxI data.weeks - 12 + 1) →
      (∃ s ∈ data.shifts, s.is_night = true ∧ sw ≤ s.week ∧ s.week ≤ sw + 12) →
      data.shifts.countP
          (fun s => s.is_night && decide (sw ≤ s.week) && decide (s.week ≤ sw + 12)
            && x s.shift_id e)
        + prev_nights_in_weeks data.prev e (intRange sw (sw + 13)) ≤ 35 := by
  have hc := constraints_c73 h
  rw [c73_rolling_13_weeks_ok] at hc
  have hce := List.all_eq_true.mp hc e he
  intro sw hsw hex
  have happ := List.all_eq_true.mp hce sw hsw
  obtain ⟨s0, hs0, hn0, hw1, hw2⟩ := hex
  have hmemw : s0.week ∈ intRange sw (sw + 13) := mem_intRange.mpr ⟨hw1, by omega⟩
  have hmemfs : s0.shift_id ∈ (intRange sw (sw + 13)).flatMap
      (fun w => (nightShiftsOfWeek data.shifts w).map fun s => s.shift_id) :=
    List.mem_flatMap.mpr ⟨s0.week, hmemw,
      List.mem_map.mpr ⟨s0, List.mem_filter.mpr ⟨hs0, by simp [hn0]⟩, rfl⟩⟩
  have hne := isEmpty_false_of_mem hmemfs
  rw [if_neg (by simp [hne])] at happ
  have hineq := of_decide_eq_true happ
  rw [countP_nights_flatMap data.shifts x e _ (intRange_nodup sw (sw + 13))] at hineq
  have hext : data.shifts.countP
        (fun s => s.is_night && memI s.week (intRange sw (sw + 13)) && x s.shift_id e)
      = data.shifts.countP
        (fun s => s.is_night && decide (sw ≤ s.week) && decide (s.week ≤ sw + 12)
          && x s.shift_id e) := by
    apply countP_ext
    intro a _
    rw [Bool.eq_iff_iff]
    simp only [Bool.and_eq_true, memI_iff, mem_intRange, decide_eq_true_eq]
    constructor
    · rintro ⟨⟨hn, h1, h2⟩, hx⟩
      exact ⟨⟨⟨hn, h1⟩, by omega⟩, hx⟩
    · rintro ⟨⟨⟨hn, h1⟩, h2⟩, hx⟩
      exact ⟨⟨hn, h1, by omega⟩, hx⟩
  rw [hext] at hineq
  exact hineq

/-- Witness for C4 (amended) at the 13-week instance, window `[1, 13]`. -/
theorem C4_rolling_13_week_cap_witness :
    auto_rooster_constraints w4Data w4X w4U = true
    ∧ (w4Data.shifts.countP
        (fun s => s.is_night && decide ((1 : Int) ≤ s.week) && decide (s.week ≤ 1 + 12)
          && w4X s.shift_id "e1")
      + prev_nights_in_weeks w4Data.prev "e1" (intRange 1 (1 + 13)) ≤ 35) :=
  ⟨by decide,
    C4_rolling_13_week_cap w4Data w4X w4U "e1" (by decide) (by decide) 1 (by decide)
      ⟨w4Data.shifts.headD default, by decide, by decide, by decide, by decide⟩⟩

/-- Counterexample for C4 as stated: the horizon is shorter than 13 weeks, so
the source emits no 7.3 constraint at all, and the model accepts a solution
although the 13-week window of days −42…48 (aligned to the horizon week grid
and intersecting the horizon) carries 31 previous nights plus 5 assigned
nights = 36 > 35. -/
theorem C4_counterexample_partial_window :
    auto_rooster_constraints c4Data c4X c4U = true
    ∧ (c4Data.shifts.any fun s =>
        decide (-42 ≤ s.shift_date) && decide (s.shift_date ≤ 48)) = true
    ∧ ¬ (c4Data.prev.countP (fun r => r.employee_id == some "e1" && r.is_night
          && decide (-42 ≤ r.shift_date) && decide (r.shift_date ≤ 48))
        + c4Data.shifts.countP (fun s => s.is_night && decide (-42 ≤ s.shift_date)
          && decide (s.shift_date ≤ 48) && c4X s.shift_id "e1") ≤ 35) :=
  ⟨by decide, by decide, by decide⟩

/-! ### C5 -/

/-- C5: `validate_auto_rooster` accumulates violation messages but has no
`return` statement.  On a table with a genuine violation (shift 0 assigned to
two employees at once) the accumulated list is nonempty, yet the function
returns `None`, and the web layer's `if errors:` therefore accepts the run. -/
theorem C5_validator_returns_none :
    validate_errors c5Data c5Result ≠ []
    ∧ validate_auto_rooster c5Data c5Result = none
    ∧ generate_schedule_response c5Data (some c5Result)
        = WebResponse.success c5Result.assignments :=
  ⟨by decide, rfl, rfl⟩

/-! ### C6 -/

/-- C6: the model's C7.4 forbids nights at `leeftijd ≥ 55` (column
`nachten`), the validator reports only at `leeftijd > 55` (column
`voorkeur_nacht`).  A 55-year-old with both policies `niet` assigned a night
shift violates the model constraint while the validator reports nothing, so
the two checks are not functionally equivalent. -/
theorem C6_age_threshold_divergence :
    (getWorker c6Data.workers "e1").leeftijd = 55
    ∧ c74_age_55_ok c6Data c6X = false
    ∧ validate_errors c6Data c6Result = [] :=
  ⟨by decide, by decide, by decide⟩

/-! ### C7 -/

/-- C7: on any status other than `OPTIMAL`/`FEASIBLE` the solver driver
returns `None` (no status, no assignments), and the web layer's subsequent
`result["assignments_df"]` raises a `TypeError` that surfaces as an HTTP 500
internal error — not as a status with no assignments. -/
theorem C7_failure_returns_none :
    auto_rooster_standardized_result CpStatus.infeasible c7Data c7X = none
    ∧ auto_rooster_standardized_result CpStatus.unknown c7Data c7X = none
    ∧ auto_rooster_standardized_result CpStatus.model_invalid c7Data c7X = none
    ∧ generate_schedule_response c7Data
        (auto_rooster_standardized_result CpStatus.infeasible c7Data c7X)
      = WebResponse.internalError "TypeError" :=
  ⟨by decide, by decide, by decide, by decide⟩

/-! ### C8 -/

/-- Counterexample for C8 as stated: the canonicalised prior shift
20:00–04:00 crosses midnight (`end ≤ start`) yet gets `is_night = false`
because the source derives it from the start hour; and the horizon instance
built from a template row with `end = start` gets `is_night = false` although
`end ≤ start`. -/
theorem C8_counterexample_is_night :
    ((canon_prev_rows [c8RawRow]).headD default).is_night = false
    ∧ c8RawRow.end_time ≤ c8RawRow.start_time
    ∧ ((build_shift_instances [c8Req] 1 0 0).headD default).is_night = false
    ∧ c8Req.end_time ≤ c8Req.start_time :=
  ⟨by decide, by decide, by decide, by decide⟩

theorem canon_prev_go_get (fd : Int) :
    ∀ (rows : List RawPrevRow) (i0 j : Nat) (r : RawPrevRow), rows.get? j = some r →
      (canon_prev_go i0 fd rows).get? j
        = some { shift_id := i0 + j, shift_date := r.shift_date,
                 employee_id := some r.employee_id,
                 is_night := canon_prev_is_night r.start_time,
                 week := (r.shift_date - fd) / 7 } := by
  intro rows
  induction rows with
  | nil => intro i0 j r h; simp at h
  | cons a t ih =>
    intro i0 j r h
    cases j with
    | zero =>
      have ha : a = r := by simpa using h
      subst ha
      simp [canon_prev_go]
    | succ m =>
      have h' : t.get? m = some r := h
      have harith : i0 + (m + 1) = i0 + 1 + m := by omega
      rw [harith]
      exact ih (i0 + 1) m r h'

/-- C8 (amended): horizon shift instances get `is_night` iff the end time is
*strictly* before the start time, while canonicalised prior assignments get
`is_night` iff the start hour is ≥ 22 or < 6. -/
theorem C8_is_night_rules :
    (∀ (reqs : List TemplateReq) (n : Nat) (sd gsd : Int),
      ∀ s ∈ build_shift_instances reqs n sd gsd,
        s.is_night = decide (s.end_time < s.start_time))
    ∧ (∀ (rows : List RawPrevRow) (j : Nat) (r : RawPrevRow),
        rows.get? j = some r →
        ∃ p, (canon_prev_rows rows).get? j = some p
          ∧ p.is_night = canon_prev_is_night r.start_time
          ∧ p.shift_date = r.shift_date
          ∧ p.employee_id = some r.employee_id) := by
  constructor
  · intro reqs n sd gsd s hs
    simp only [build_shift_instances, List.mem_flatMap, List.mem_map, List.mem_range] at hs
    obtain ⟨week, -, row, -, rfl⟩ := hs
    rfl
  · intro rows j r h
    exact ⟨_, canon_prev_go_get _ rows 0 j r h, rfl, rfl, rfl⟩

/-- Witness for C8 (amended) at a 23:00–07:00 template row and a 23:00 prior
row. -/
theorem C8_is_night_rules_witness :
    ((build_shift_instances [c8wReq] 1 0 0).headD default).is_night
      = decide (((build_shift_instances [c8wReq] 1 0 0).headD default).end_time
          < ((build_shift_instances [c8wReq] 1 0 0).headD default).start_time)
    ∧ ∃ p, (canon_prev_rows [c8wRaw]).get? 0 = some p
        ∧ p.is_night = canon_prev_is_night c8wRaw.start_time
        ∧ p.shift_date = c8wRaw.shift_date
        ∧ p.employee_id = some c8wRaw.employee_id :=
  ⟨C8_is_night_rules.1 [c8wReq] 1 0 0 _ (by decide),
   C8_is_night_rules.2 [c8wRaw] 0 c8wRaw (by decide)⟩

/-! ### C9 -/

theorem head?_mem {α : Type} {l : List α} {a : α} (h : l.head? = some a) : a ∈ l := by
  cases l with
  | nil => simp at h
  | cons b t =>
    have hb : b = a := by simpa using h
    exact hb ▸ List.mem_cons_self b t

theorem sum_map_zero_nat (ids : List Nat) : (ids.map fun _ => (0 : Nat)).sum = 0 := by
  induction ids with
  | nil => rfl
  | cons i t ih => simp [ih]

theorem find?_eq_none_of_not_mem_ids {t : List Shift} {i : Nat}
    (h : i ∉ t.map fun s => s.shift_id) :
    t.find? (fun s => s.shift_id == i) = none :=
  List.find?_eq_none.mpr fun s hs hbeq =>
    h (List.mem_map.mpr ⟨s, hs, by simpa using hbeq⟩)

theorem durOf_cons (c : Shift) (t : List Shift) (i : Nat) :
    durOf (c :: t) i = if c.shift_id == i then c.duration_min else durOf t i := by
  by_cases h : (c.shift_id == i) = true
  · rw [if_pos h]
    unfold durOf
    rw [List.find?_cons_of_pos (p := fun s => s.shift_id == i) (a := c) t h]
    rfl
  · rw [if_neg h]
    unfold durOf
    rw [List.find?_cons_of_neg (p := fun s => s.shift_id == i) (a := c) t h]

theorem sum_map_durOf_cons {c : Shift} {t : List Shift}
    (h0 : durOf t c.shift_id = 0) :
    ∀ ids : List Nat, ids.Nodup →
      (ids.map (durOf (c :: t))).sum
        = (if memN c.shift_id ids then c.duration_min else 0) + (ids.map (durOf t)).sum := by
  intro ids
  induction ids with
  | nil => intro _; simp [memN]
  | cons i ids' ih =>
    intro hnd
    have hni : i ∉ ids' := (List.nodup_cons.mp hnd).1
    rw [List.map_cons, List.sum_cons, List.map_cons, List.sum_cons,
      ih (List.Nodup.of_cons hnd), durOf_cons]
    by_cases hci : c.shift_id = i
    · have hm1 : memN c.shift_id (i :: ids') = true := memN_iff.mpr (by simp [hci])
      have hm2 : memN c.shift_id ids' = false := by
        cases hv : memN c.shift_id ids' with
        | false => rfl
        | true => exact absurd (hci ▸ memN_iff.mp hv) hni
      rw [if_pos (by simp [hci]), hm1, hm2]
      have hdt : durOf t i = 0 := hci ▸ h0
      simp [hdt]
    · have hbeq : (c.shift_id == i) = false := beq_eq_false_iff_ne.mpr hci
      have hm : memN c.shift_id (i :: ids') = memN c.shift_id ids' := by
        simp [memN, beq_eq_false_iff_ne.mpr (Ne.symm hci)]
      rw [if_neg (by simp [hbeq]), hm]
      cases hv : memN c.shift_id ids' <;> (simp; try omega)

theorem sum_filter_memN :
    ∀ (catalogue : List Shift) (ids : List Nat),
      (catalogue.map fun s => s.shift_id).Nodup → ids.Nodup →
      ((catalogue.filter fun s => memN s.shift_id ids).map fun s => s.duration_min).sum
        = (ids.map (durOf catalogue)).sum := by
  intro catalogue
  induction catalogue with
  | nil =>
    intro ids _ _
    have h : ids.map (durOf []) = ids.map fun _ => (0 : Nat) := by
      apply List.map_congr_left
      intro i _
      rfl
    simp [h, sum_map_zero_nat]
  | cons c t ih =>
    intro ids hcat hnd
    have hcid : c.shift_id ∉ t.map fun s => s.shift_id := (List.nodup_cons.mp hcat).1
    have h0 : durOf t c.shift_id = 0 := by
      unfold durOf
      rw [find?_eq_none_of_not_mem_ids hcid]
      rfl
    rw [List.filter_cons]
    rw [sum_map_durOf_cons h0 ids hnd]
    by_cases hmem : memN c.shift_id ids = true
    · rw [if_pos (by simp [hmem]), List.map_cons, List.sum_cons,
        ih ids (List.nodup_cons.mp hcat).2 hnd, hmem, if_pos rfl]
    · have hmem' : memN c.shift_id ids = false := by
        cases hv : memN c.shift_id ids with
        | false => rfl
        | true => exact absurd hv hmem
      rw [if_neg (by simp [hmem']), ih ids (List.nodup_cons.mp hcat).2 hnd, hmem']
      simp

theorem find?_of_nodup_ids :
    ∀ {catalogue : List Shift},
      (catalogue.map fun s => s.shift_id).Nodup → ∀ {s : Shift}, s ∈ catalogue →
      catalogue.find? (fun t => t.shift_id == s.shift_id) = some s := by
  intro catalogue
  induction catalogue with
  | nil => intro _ s hs; simp at hs
  | cons c t ih =>
    intro hcat s hs
    rcases List.mem_cons.mp hs with rfl | hst
    · exact List.find?_cons_of_pos _ (by simp)
    · have hcid : c.shift_id ∉ t.map fun s => s.shift_id := (List.nodup_cons.mp hcat).1
      have hne : c.shift_id ≠ s.shift_id := fun heq =>
        hcid (heq ▸ List.mem_map.mpr ⟨s, hst, rfl⟩)
      rw [List.find?_cons_of_neg (p := fun t => t.shift_id == s.shift_id) (a := c) t
        (by simp [hne])]
      exact ih (List.nodup_cons.mp hcat).2 hst

theorem durOf_eq_of_mem {catalogue : List Shift}
    (hcat : (catalogue.map fun s => s.shift_id).Nodup) {s : Shift} (hs : s ∈ catalogue) :
    durOf catalogue s.shift_id = s.duration_min := by
  unfold durOf
  rw [find?_of_nodup_ids hcat hs]
  rfl

theorem row_durations_eq_map_durOf {catalogue : List Shift} {vast : List VastRow}
    {emp : EmpId} (hcat : (catalogue.map fun s => s.shift_id).Nodup) :
    const_schedule_row_durations catalogue vast emp
      = (matched_shift_ids catalogue vast emp).map (durOf catalogue) := by
  unfold const_schedule_row_durations matched_shift_ids
  rw [List.map_filterMap]
  apply List.filterMap_congr
  intro r hr
  cases hfs : find_shift catalogue r with
  | none => rfl
  | some s =>
    have hsmem : s ∈ catalogue := by
      unfold find_shift at hfs
      cases hd : day_map_const r.dag with
      | none => rw [hd] at hfs; simp at hfs
      | some dow =>
        rw [hd] at hfs
        have hfs' : (catalogue.filter fun s2 =>
            s2.shift_name == r.dienst && s2.day_of_week == dow).head? = some s := hfs
        exact (List.mem_filter.mp (head?_mem hfs')).1
    show some s.duration_min = some (durOf catalogue s.shift_id)
    rw [durOf_eq_of_mem hcat hsmem]

/-- C9 (amended): the emitted constant-schedule unavailability entry exists
per row (full day, 00:00–23:59, at the computed date), and the worker's
deduction equals the per-row sum of matched durations *whenever no two rows
match the same catalogue shift*; repeated matches are deducted once. -/
theorem C9_constant_schedule :
    (∀ (catalogue : List Shift) (vast : List VastRow) (emp : EmpId),
      (catalogue.map fun s => s.shift_id).Nodup →
      (matched_shift_ids catalogue vast emp).Nodup →
      const_schedule_deduction catalogue vast emp
        = (const_schedule_row_durations catalogue vast emp).sum)
    ∧ (∀ (start_date : Int) (vast : List VastRow), ∀ r ∈ vast, ∀ dow : Nat,
        day_map_const r.dag = some dow →
        ∃ o ∈ const_unavail_rows start_date vast,
          o.emp = r.medewerker_id
          ∧ o.datum = start_date + (r.weekvolgnr - 1) * 7 + (dow : Int)
          ∧ o.beschikbaarheid = "Niet beschikbaar (constant schedule)"
          ∧ o.tijd_vanaf = some 0 ∧ o.tijd_tm = some (23 * 60 + 59)) := by
  constructor
  · intro catalogue vast emp hcat hids
    unfold const_schedule_deduction
    rw [sum_filter_memN catalogue (matched_shift_ids catalogue vast emp) hcat hids,
      ← row_durations_eq_map_durOf hcat]
  · intro sd vast r hr dow hdow
    refine ⟨{ emp := r.medewerker_id, datum := sd + (r.weekvolgnr - 1) * 7 + (dow : Int),
              beschikbaarheid := "Niet beschikbaar (constant schedule)",
              tijd_vanaf := some 0, tijd_tm := some (23 * 60 + 59) },
      List.mem_filterMap.mpr ⟨r, hr, ?_⟩, rfl, rfl, rfl, rfl, rfl⟩
    rw [hdow]
    rfl

/-- Counterexample for C9 as stated: two constant-schedule rows of the same
worker matching the same catalogue shift (weeks 1 and 2, same weekday and
name) are deducted once (480 min), not twice (960 min). -/
theorem C9_repeated_rows_deducted_once :
    const_schedule_deduction c9Cat c9Vast "w1" = 480
    ∧ (const_schedule_row_durations c9Cat c9Vast "w1").sum = 960
    ∧ const_schedule_deduction c9Cat c9Vast "w1"
      ≠ (const_schedule_row_durations c9Cat c9Vast "w1").sum :=
  ⟨by decide, by decide, by decide⟩

/-- Witness for C9 (amended): two rows matching two distinct catalogue
shifts. -/
theorem C9_constant_schedule_witness :
    const_schedule_deduction c9wCat c9wVast "w1"
      = (const_schedule_row_durations c9wCat c9wVast "w1").sum
    ∧ ∃ o ∈ const_unavail_rows 0 c9wVast,
        o.emp = (c9wVast.headD default).medewerker_id
        ∧ o.datum = 0 + ((c9wVast.headD default).weekvolgnr - 1) * 7 + ((0 : Nat) : Int)
        ∧ o.beschikbaarheid = "Niet beschikbaar (constant schedule)"
        ∧ o.tijd_vanaf = some 0 ∧ o.tijd_tm = some (23 * 60 + 59) :=
  ⟨C9_constant_schedule.1 c9wCat c9wVast "w1" (by decide) (by decide),
   C9_constant_schedule.2 0 c9wVast (c9wVast.headD default) (by decide) 0 (by decide)⟩

/-! ### C10 -/

/-- C10: a missing `Beschikbaarheid` is filled as `Onbekend`, which is not
`beschikbaar`; every row whose kind is not exactly `beschikbaar`
(case-insensitively) bars the worker, in every accepted solution, from each
shift of that date whose times conflict with the row's window (the whole day
when a window end is missing); and on such a row the validator reports a
violation whenever the worker is nevertheless assigned a conflicting shift
that day. -/
theorem C10_unavailability_exclusion :
    (∀ (data : RoosterData) (x : Nat → EmpId → Bool) (u : Nat → Bool),
      auto_rooster_constraints data x u = true →
      ∀ r ∈ data.onb, r.emp ∈ data.emp_ids →
        pyLower r.beschikbaarheid ≠ "beschikbaar" →
        ∀ s ∈ data.shifts, s.shift_date = r.datum →
          windowConflict r.tijd_vanaf r.tijd_tm s.start_time s.end_time = true →
          x s.shift_id r.emp = false)
    ∧ fill_beschikbaarheid none = "Onbekend"
    ∧ pyLower "Onbekend" ≠ "beschikbaar"
    ∧ (∀ (data : RoosterData) (result : RoosterResult) (r : OnbRow) (row : AssignRow),
        r ∈ data.onb → (∃ w ∈ data.workers, w.medewerker_id = r.emp) →
        pyLower r.beschikbaarheid ≠ "beschikbaar" →
        row ∈ result.assignments → row.employee_id = some r.emp →
        row.shift_date = r.datum →
        windowConflict r.tijd_vanaf r.tijd_tm row.start_time row.end_time = true →
        validate_errors data result ≠ []) := by
  refine ⟨?_, rfl, by decide, ?_⟩
  · intro data x u h r hr hemp hlow s hs hdate hconf
    have hc := constraints_unavailability h
    rw [unavailability_ok] at hc
    have hcr := List.all_eq_true.mp hc r hr
    rw [if_neg (by simp [memS_iff.mpr hemp])] at hcr
    rw [if_neg (by simp only [beq_iff_eq]; exact hlow)] at hcr
    have hsr := List.all_eq_true.mp hcr s (List.mem_filter.mpr ⟨hs, by simp [hdate]⟩)
    rw [hconf] at hsr
    simpa using hsr
  · intro data result r row hr hworker hlow hrow hempid hdate hconf
    obtain ⟨w, hw, hwid⟩ := hworker
    have hfil : row ∈ result.assignments.filter (fun r2 => r2.employee_id.isSome) :=
      List.mem_filter.mpr ⟨hrow, by simp [hempid]⟩
    have hany : (data.workers.any fun w2 => w2.medewerker_id == r.emp) = true :=
      List.any_eq_true.mpr ⟨w, hw, by simp [hwid]⟩
    have hmsg : ∃ m, m ∈ check6_unavailability data.workers data.onb
        (result.assignments.filter fun r2 => r2.employee_id.isSome) := by
      unfold check6_unavailability
      rcases hva : r.tijd_vanaf with _ | a <;> rcases htm : r.tijd_tm with _ | b
      · refine ⟨"Employee " ++ r.emp ++ " scheduled on fully unavailable day "
            ++ toString r.datum, List.mem_flatMap.mpr ⟨r, hr, ?_⟩⟩
        rw [if_neg (by simp [hany]), if_neg (by simp only [beq_iff_eq]; exact hlow)]
        refine List.mem_flatMap.mpr ⟨row, List.mem_filter.mpr ⟨hfil, by simp [hempid]⟩, ?_⟩
        rw [hva, htm, if_neg (by simp [hdate])]
        exact List.mem_cons_self _ _
      · refine ⟨"Employee " ++ r.emp ++ " scheduled on fully unavailable day "
            ++ toString r.datum, List.mem_flatMap.mpr ⟨r, hr, ?_⟩⟩
        rw [if_neg (by simp [hany]), if_neg (by simp only [beq_iff_eq]; exact hlow)]
        refine List.mem_flatMap.mpr ⟨row, List.mem_filter.mpr ⟨hfil, by simp [hempid]⟩, ?_⟩
        rw [hva, htm, if_neg (by simp [hdate])]
        exact List.mem_cons_self _ _
      · refine ⟨"Employee " ++ r.emp ++ " scheduled on fully unavailable day "
            ++ toString r.datum, List.mem_flatMap.mpr ⟨r, hr, ?_⟩⟩
        rw [if_neg (by simp [hany]), if_neg (by simp only [beq_iff_eq]; exact hlow)]
        refine List.mem_flatMap.mpr ⟨row, List.mem_filter.mpr ⟨hfil, by simp [hempid]⟩, ?_⟩
        rw [hva, htm, if_neg (by simp [hdate])]
        exact List.mem_cons_self _ _
      · rw [hva, htm] at hconf
        refine ⟨"Employee " ++ r.emp ++ " scheduled during unavailable time on day "
            ++ toString r.datum, List.mem_flatMap.mpr ⟨r, hr, ?_⟩⟩
        rw [if_neg (by simp [hany]), if_neg (by simp only [beq_iff_eq]; exact hlow)]
        refine List.mem_flatMap.mpr ⟨row, List.mem_filter.mpr ⟨hfil, by simp [hempid]⟩, ?_⟩
        rw [hva, htm, if_neg (by simp [hdate])]
        have hconf' : (!(decide (row.end_time ≤ a) || decide (row.start_time ≥ b))) = true :=
          hconf
        have hin : ("Employee " ++ r.emp ++ " scheduled during unavailable time on day "
              ++ toString r.datum)
            ∈ (if (!(decide (row.end_time ≤ a) || decide (row.start_time ≥ b))) = true then
                ["Employee " ++ r.emp ++ " scheduled during unavailable time on day "
                  ++ toString r.datum]
              else []) := by
          rw [if_pos hconf']
          exact List.mem_cons_self _ _
        exact hin
    obtain ⟨m, hm⟩ := hmsg
    have hmem : m ∈ validate_errors data result := by
      unfold validate_errors
      simp only [List.mem_append]
      tauto
    exact List.ne_nil_of_mem hmem

/-- Witness for C10: at the `Onbekend` full-day row the model forces
`x[0, e1] = 0`, and on the violating table that assigns the shift anyway the
validator reports. -/
theorem C10_unavailability_exclusion_witness :
    auto_rooster_constraints c10Data c10X c10U = true
    ∧ c10X 0 "e1" = false
    ∧ validate_errors c10Data c10Res2 ≠ [] := by
  refine ⟨by decide, ?_, ?_⟩
  · exact C10_unavailability_exclusion.1 c10Data c10X c10U (by decide)
      (c10Data.onb.headD default) (by decide) (by decide) (by decide)
      (c10Data.shifts.headD default) (by decide) (by decide) (by decide)
  · exact C10_unavailability_exclusion.2.2.2 c10Data c10Res2
      (c10Data.onb.headD default) (c10Res2.assignments.headD default) (by decide)
      ⟨mkWorker "e1" 30 "overig" "overig", by decide, by decide⟩
      (by decide) (by decide) (by decide) (by decide) (by decide)

end Hoevelaken
